import Mathlib

/-!
# AdrenalineEngine: GPU buffer management

A shallow embedding of `src/engine/renderer/buffers.cpp` (class `Adren::Buffers`) and of
`Adren::Renderer::reloadScene` from `src/engine/renderer/renderer.cpp`.

* `VkDeviceSize` values are natural numbers with explicit reduction modulo `2 ^ 64`.
* Memory is byte addressed (`Mem`); an object of `n` bytes is its object representation
  (`Obj n`), so `memcpy` and `vkCmdCopyBuffer` are plain byte copies.
* The Vulkan device and the VMA allocator are a `Device` record: the outcomes of the coming
  `vmaCreateBuffer` calls, the handles that are live and the log of the calls issued so far.
* `glm` is a record of uninterpreted operations (`Glm`).
* The members `dynamicAlignment`, `dynamicUniform.align` and `dynamicUniform.size` are
  declared outside the sources at hand; they are taken to be `VkDeviceSize`, the type of the
  `minUboAlignment` they are computed from.
* Pointers carry the memory they designate: calling an update before the buffers were created
  is outside the embedding.
-/

namespace Adren

/-! ## 64-bit unsigned arithmetic (`VkDeviceSize`, `uint64_t`) -/

/-- Addition of two `uint64_t` values. -/
def add64 (a b : Nat) : Nat := (a + b) % 2 ^ 64

/-- Subtraction of two `uint64_t` values (wraps below zero). -/
def sub64 (a b : Nat) : Nat := (a % 2 ^ 64 + 2 ^ 64 - b % 2 ^ 64) % 2 ^ 64

/-- Multiplication of two `uint64_t` values. -/
def mul64 (a b : Nat) : Nat := (a * b) % 2 ^ 64

/-- Bitwise complement of a `uint64_t` value. -/
def not64 (a : Nat) : Nat := 2 ^ 64 - 1 - a % 2 ^ 64

/-- Bitwise conjunction of two `uint64_t` values. -/
def and64 (a b : Nat) : Nat := (a % 2 ^ 64) &&& (b % 2 ^ 64)

/-! ## Bytes, objects and memory -/

/-- One byte of memory. -/
abbrev Byte := Fin 256

/-- Byte-addressed memory region: the byte stored at each offset from the region's base. -/
abbrev Mem := Nat → Byte

/-- Object representation of a value that occupies `n` bytes. -/
abbrev Obj (n : Nat) := Fin n → Byte

/-- The value of `sizeof(glm::mat4)`: sixteen 4-byte floats. -/
def sizeofMat4 : Nat := 64

/-- The value of `sizeof(Vertex)` (types.h): `pos`, `color`, `normal` are `vec3` and
`texCoord` is `vec2`, eleven 4-byte floats. -/
def sizeofVertex : Nat := 44

/-- The value of `sizeof(uint32_t)`, the type of one index. -/
def sizeofIndex : Nat := 4

/-- The value of `sizeof(UniformBufferObject)` (types.h): two 16-aligned `mat4` members. -/
def sizeofUniformBufferObject : Nat := 128

/-- A `glm::mat4` object. -/
abbrev Mat4 := Obj 64

/-- A `Vertex` object (types.h). -/
abbrev Vertex := Obj 44

/-- A `uint32_t` index object. -/
abbrev Index := Obj 4

/-- The C function `memcpy(dst, src, n)`: the first `n` bytes of `dst` become those of `src`. -/
def memcpy (dst src : Mem) (n : Nat) : Mem :=
  fun b => if b < n then src b else dst b

/-- Assignment `*(T*)(base + off) = x` of an `n`-byte object. -/
def storeObj {n : Nat} (m : Mem) (off : Nat) (x : Obj n) : Mem :=
  fun b => if h : off ≤ b ∧ b < off + n then x ⟨b - off, by omega⟩ else m b

/-- Read `*(T*)(base + off)` of an `n`-byte object. -/
def loadObj (n : Nat) (m : Mem) (off : Nat) : Obj n :=
  fun t => m (off + t.val)

/-- The bytes behind `v.data()` for a `std::vector` of `n`-byte objects; bytes past the last
element are not part of the vector and read as zero here. -/
def arrayBytes {n : Nat} (xs : List (Obj n)) : Mem :=
  fun b =>
    if h : 0 < n then
      match xs[b / n]? with
      | some x => x ⟨b % n, Nat.mod_lt _ h⟩
      | none => 0
    else 0

/-! ## glm and the scene types (types.h) -/

/-- The operations of glm used by the buffer code, uninterpreted. `F` is `float`, `V` is
`glm::vec3`. -/
structure Glm (F V : Type) where
  /-- The test `x != 0.0f`. -/
  neZero : F → Bool
  /-- The function `glm::radians`. -/
  radians : F → F
  /-- Float division. -/
  div : F → F → F
  /-- The conversion `(float)n` of a `uint32_t`. -/
  ofUInt32 : Nat → F
  /-- The literal `110.0f`. -/
  lit110 : F
  /-- The literal `0.1f`. -/
  litNear : F
  /-- The literal `10000.0f`. -/
  litFar : F
  /-- The constructor `glm::vec3(s)`. -/
  vec3 : F → V
  /-- Vector addition. -/
  vadd : V → V → V
  /-- The matrix `glm::mat4(1.0f)`. -/
  identity : Mat4
  /-- The function `glm::translate`. -/
  translate : Mat4 → V → Mat4
  /-- The function `glm::rotate`. -/
  rotate : Mat4 → F → V → Mat4
  /-- The function `glm::scale`. -/
  scale : Mat4 → V → Mat4
  /-- The function `glm::lookAt`. -/
  lookAt : V → V → V → Mat4
  /-- The function `glm::perspective`. -/
  perspective : F → F → F → F → Mat4
  /-- The statement `m[1][1] *= -1`. -/
  negate11 : Mat4 → Mat4

/-- The struct `Model::Node` (types.h); only `children` is read by the code embedded here. -/
inductive Node where
  | mk (children : List Node)

/-- The member `children` of a node. -/
def Node.children : Node → List Node
  | .mk cs => cs

/-- The class `Model` (types.h), restricted to the members the buffer code reads. -/
structure Model (F V : Type) where
  position : V
  rotationAngle : F
  rotationAxis : V
  scale : F
  nodes : List Node
  vertices : List Vertex
  indices : List Index

/-- The struct `Camera` (types.h), restricted to the members `updateUniformBuffer` reads. -/
structure Camera (V : Type) where
  toggled : Bool
  pos : V
  front : V
  up : V

/-- The struct `VkExtent2D`. -/
structure VkExtent2D where
  width : Nat
  height : Nat

/-- The struct `UniformBufferObject` (types.h). -/
structure UniformBufferObject where
  view : Mat4
  proj : Mat4

/-- Object representation of a `UniformBufferObject`: `view` at offset 0, `proj` at 64. -/
def UniformBufferObject.bytes (u : UniformBufferObject) : Mem :=
  storeObj (storeObj (fun _ => 0) 0 u.view) 64 u.proj

/-! ## The device -/

/-- Result codes of `vmaCreateBuffer` that matter here. -/
inductive VkResult where
  | success
  | errorOutOfDeviceMemory
  deriving DecidableEq, Repr

/-- Bits of `VkBufferUsageFlags` used by the buffer code. -/
inductive BufferUsage where
  | transferSrc
  | transferDst
  | uniformBuffer
  | indexBuffer
  | vertexBuffer
  deriving DecidableEq, Repr

/-- Bits of `VkMemoryPropertyFlags` used by the buffer code. -/
inductive MemoryProperty where
  | deviceLocal
  | hostVisible
  | hostCoherent
  deriving DecidableEq, Repr

/-- Values of `VmaMemoryUsage` used by the buffer code. -/
inductive VmaMemoryUsage where
  | gpuOnly
  | cpuToGpu
  | auto
  deriving DecidableEq, Repr

/-- One call issued to Vulkan, VMA or the C library, in the order the code issues them. -/
inductive Action where
  | vmaCreateBuffer (size : Nat) (usage : List BufferUsage) (properties : List MemoryProperty)
      (vmaUsage : VmaMemoryUsage) (result : VkResult) (handle : Nat)
  | vmaMapMemory (handle : Nat)
  | vmaUnmapMemory (handle : Nat)
  | memcpy (dst : Nat) (size : Nat)
  | beginSingleTimeCommands
  | vkCmdCopyBuffer (src dst size : Nat)
  | endSingleTimeCommands
  | vmaDestroyBuffer (handle : Nat)
  | alignedAlloc (size alignment : Nat)
  | createSets
  | vkDeviceWaitIdle
  | vkQueueWaitIdle
  | vkWaitForFences
  deriving DecidableEq, Repr

/-- The struct `Buffer`. The handle pair `buffer`/`memory` is one number (`0` is
`VK_NULL_HANDLE`); `data` is the content of the backing allocation, which is also what the
`mapped` pointer designates; `size` is the `bufferInfo.size` the buffer was created with;
`align` is the member renderer.cpp uses for the stride. -/
structure Buffer where
  buffer : Nat
  size : Nat
  align : Nat
  data : Mem

/-- A value-initialised `Buffer`. -/
def Buffer.null : Buffer := ⟨0, 0, 0, fun _ => 0⟩

/-- The members of `Adren::Devices` and of the VMA allocator seen by the buffer code.
`results` lists the outcomes of the coming `vmaCreateBuffer` calls in call order (success
once exhausted); `garbage h` is the indeterminate initial content of allocation `h`. -/
structure Device where
  minUniformBufferOffsetAlignment : Nat
  results : List VkResult
  garbage : Nat → Mem
  next : Nat
  live : List Nat
  trace : List Action

/-- Append one call to the log. -/
def Device.log (d : Device) (a : Action) : Device :=
  { d with trace := d.trace ++ [a] }

/-- The VMA function `vmaCreateBuffer`: consumes the next scripted outcome; on success a
fresh non-null handle becomes live, on failure the returned handle is null. -/
def vmaCreateBuffer (d : Device) (size : Nat) (usage : List BufferUsage)
    (properties : List MemoryProperty) (vmaUsage : VmaMemoryUsage) :
    Device × VkResult × Nat :=
  match d.results with
  | VkResult.errorOutOfDeviceMemory :: rest =>
    ({ d with results := rest,
              trace := d.trace ++ [Action.vmaCreateBuffer size usage properties vmaUsage
                VkResult.errorOutOfDeviceMemory 0] },
      VkResult.errorOutOfDeviceMemory, 0)
  | rest =>
    ({ d with results := rest.tail, next := d.next + 1, live := (d.next + 1) :: d.live,
              trace := d.trace ++ [Action.vmaCreateBuffer size usage properties vmaUsage
                VkResult.success (d.next + 1)] },
      VkResult.success, d.next + 1)

/-- The VMA function `vmaDestroyBuffer`. -/
def vmaDestroyBuffer (d : Device) (handle : Nat) : Device :=
  { d with live := d.live.filter (fun h => h != handle),
           trace := d.trace ++ [Action.vmaDestroyBuffer handle] }

/-- The class `Adren::Buffers`. buffers.cpp indexes `dynamicUniform` as a vector of `Buffer`
(`D = List Buffer`) while renderer.cpp uses it as a single `Buffer` (`D = Buffer`); `scratch`
is the host array `uboData.model`. -/
structure Buffers (D : Type) where
  vertex : Buffer
  index : Buffer
  uniform : Buffer
  dynamicUniform : D
  scratch : Mem
  dynamicAlignment : Nat

/-! ## buffers.cpp -/

/-- `Adren::Buffers::createBuffer` (buffers.cpp:64-76): fills a create-info with `size` and
`usage`, calls `vmaCreateBuffer`, which writes the handles of `buffer`, and discards its
`VkResult`. -/
def createBuffer (d : Device) (size : Nat) (usage : List BufferUsage)
    (properties : List MemoryProperty) (buffer : Buffer) (vmaUsage : VmaMemoryUsage) :
    Device × Buffer :=
  let r := vmaCreateBuffer d size usage properties vmaUsage
  (r.1, { buffer with buffer := r.2.2, size := size, data := d.garbage r.2.2 })

/-- `Adren::Buffers::copyBuffer` (buffers.cpp:54-62): a single-use command buffer recording
one `vkCmdCopyBuffer` of `size` bytes; `endSingleTimeCommands` submits it and blocks until it
has run. Returns the destination with the copied bytes. -/
def copyBuffer (d : Device) (src dst : Buffer) (size : Nat) : Device × Buffer :=
  let d := d.log Action.beginSingleTimeCommands
  let d := d.log (Action.vkCmdCopyBuffer src.buffer dst.buffer size)
  let d := d.log Action.endSingleTimeCommands
  (d, { dst with data := memcpy dst.data src.data size })

/-- Map a buffer, `memcpy` `size` bytes of `src` into it, unmap it (buffers.cpp:24-27 and
42-45). -/
def stage (d : Device) (staging : Buffer) (src : Mem) (size : Nat) : Device × Buffer :=
  let d := d.log (Action.vmaMapMemory staging.buffer)
  let d := d.log (Action.memcpy staging.buffer size)
  let d := d.log (Action.vmaUnmapMemory staging.buffer)
  (d, { staging with data := memcpy staging.data src size })

/-- The loop of buffers.cpp:14-17: append every model's indices and vertices to the two
local vectors. Returns `(vertices, indices)`. -/
def gather {F V : Type} (models : List (Model F V)) : List Vertex × List Index :=
  models.foldl (fun acc model => (acc.1 ++ model.vertices, acc.2 ++ model.indices)) ([], [])

/-- Outcome of `createModelBuffers`: the device, the two staging buffers as they were when
copied from, and the members `vertex` and `index`. -/
structure ModelBuffers where
  device : Device
  vStaging : Buffer
  iStaging : Buffer
  vertex : Buffer
  index : Buffer

/-- `Adren::Buffers::createModelBuffers` (buffers.cpp:10-52) on the members `vertex` and
`index`; the two staging buffers are uninitialised locals. The byte sizes are products of an
element size and a vector length; a vector of that length occupies that many bytes of a
64-bit address space, so the products are exact. -/
def createModelBuffers {F V : Type} (d : Device) (vertex index : Buffer)
    (models : List (Model F V)) : ModelBuffers :=
  let g := gather models
  let vertices := g.1
  let indices := g.2
  let vBufferSize := sizeofVertex * vertices.length
  let r := createBuffer d vBufferSize [BufferUsage.transferSrc]
    [MemoryProperty.hostVisible, MemoryProperty.hostCoherent] Buffer.null VmaMemoryUsage.cpuToGpu
  let r := stage r.1 r.2 (arrayBytes vertices) vBufferSize
  let vStaging := r.2
  let r := createBuffer r.1 vBufferSize [BufferUsage.transferDst, BufferUsage.vertexBuffer]
    [MemoryProperty.deviceLocal] vertex VmaMemoryUsage.gpuOnly
  let r := copyBuffer r.1 vStaging r.2 vBufferSize
  let vertex := r.2
  let d := vmaDestroyBuffer r.1 vStaging.buffer
  let iBufferSize := sizeofIndex * indices.length
  let r := createBuffer d iBufferSize [BufferUsage.transferSrc]
    [MemoryProperty.hostVisible, MemoryProperty.hostCoherent] Buffer.null VmaMemoryUsage.cpuToGpu
  let r := stage r.1 r.2 (arrayBytes indices) iBufferSize
  let iStaging := r.2
  let r := createBuffer r.1 iBufferSize [BufferUsage.transferDst, BufferUsage.indexBuffer]
    [MemoryProperty.deviceLocal] index VmaMemoryUsage.gpuOnly
  let r := copyBuffer r.1 iStaging r.2 iBufferSize
  let index := r.2
  let d := vmaDestroyBuffer r.1 iStaging.buffer
  { device := d, vStaging := vStaging, iStaging := iStaging, vertex := vertex, index := index }

/-- The bitmask rounding `(x + a - 1) & ~(a - 1)`, guarded by `a > 0`, that buffers.cpp:90-93
and renderer.cpp:139-142 apply to `x = sizeof(glm::mat4)`, for a general natural size `x`. -/
def alignedStride (naturalSize minUboAlignment : Nat) : Nat :=
  if minUboAlignment > 0 then
    and64 (sub64 (add64 naturalSize minUboAlignment) 1) (not64 (sub64 minUboAlignment 1))
  else naturalSize

/-- The stride computation of buffers.cpp:89-93 for the reported
`minUniformBufferOffsetAlignment`. -/
def createUniformBuffers_dynamicAlignment (minUboAlignment : Nat) : Nat :=
  let dynamicAlignment := sizeofMat4
  if minUboAlignment > 0 then
    and64 (sub64 (add64 dynamicAlignment minUboAlignment) 1) (not64 (sub64 minUboAlignment 1))
  else dynamicAlignment

/-- The vector operation `v.resize(n)` on a vector of `Buffer`. -/
def resize (v : List Buffer) (n : Nat) : List Buffer :=
  v.take n ++ List.replicate (n - v.length) Buffer.null

/-- The loop of buffers.cpp:101-105, from index `i` for `count` more iterations: create
`dynamicUniform[i]` with `duBufferSize` bytes, map it and `memcpy` `copySize` bytes of the
scratch array into it. -/
def createDynamicUniforms (duBufferSize copySize : Nat) (scratch : Mem) :
    Nat → Nat → Device → List Buffer → Device × List Buffer
  | 0, _, d, dynamicUniform => (d, dynamicUniform)
  | count + 1, i, d, dynamicUniform =>
    let r := createBuffer d duBufferSize [BufferUsage.uniformBuffer]
      [MemoryProperty.hostVisible] (dynamicUniform.getD i Buffer.null) VmaMemoryUsage.cpuToGpu
    let d := r.1.log (Action.vmaMapMemory r.2.buffer)
    let d := d.log (Action.memcpy r.2.buffer copySize)
    let buf := { r.2 with data := memcpy r.2.data scratch copySize }
    createDynamicUniforms duBufferSize copySize scratch count (i + 1) d (dynamicUniform.set i buf)

/-- `Adren::Buffers::createUniformBuffers` (buffers.cpp:78-106). `ubo` is the indeterminate
content of the local `UniformBufferObject`; `alignedAlloc size alignment` is
`Adren::Tools::alignedAlloc`, returning the memory it allocated or `none` for a null
pointer, in which case the `assert` aborts and the result is `none`. -/
def createUniformBuffers {F V : Type} (alignedAlloc : Nat → Nat → Option Mem) (ubo : Mem)
    (d : Device) (b : Buffers (List Buffer)) (images : List Nat) (models : List (Model F V)) :
    Option (Device × Buffers (List Buffer)) :=
  let uBufferSize := sizeofUniformBufferObject
  let r := createBuffer d uBufferSize [BufferUsage.uniformBuffer]
    [MemoryProperty.hostVisible, MemoryProperty.hostCoherent] b.uniform VmaMemoryUsage.gpuOnly
  let d := r.1.log (Action.vmaMapMemory r.2.buffer)
  let d := d.log (Action.memcpy r.2.buffer uBufferSize)
  let uniform := { r.2 with data := memcpy r.2.data ubo uBufferSize }
  let minUboAlignment := d.minUniformBufferOffsetAlignment
  let dynamicAlignment := createUniformBuffers_dynamicAlignment minUboAlignment
  let duBufferSize := mul64 models.length dynamicAlignment
  let d := d.log (Action.alignedAlloc duBufferSize dynamicAlignment)
  match alignedAlloc duBufferSize dynamicAlignment with
  | none => none
  | some scratch =>
    let dynamicUniform := resize b.dynamicUniform images.length
    let r := createDynamicUniforms duBufferSize (mul64 dynamicAlignment models.length) scratch
      images.length 0 d dynamicUniform
    some (r.1, { b with uniform := uniform, dynamicUniform := r.2, scratch := scratch,
                        dynamicAlignment := dynamicAlignment })

/-- `Adren::Buffers::updateUniformBuffer` (buffers.cpp:108-116). -/
def updateUniformBuffer {F V D : Type} (G : Glm F V) (b : Buffers D) (camera : Camera V)
    (extent : VkExtent2D) : Buffers D :=
  if camera.toggled then
    let view := G.lookAt camera.pos (G.vadd camera.pos camera.front) camera.up
    let proj := G.perspective (G.radians G.lit110)
      (G.div (G.ofUInt32 extent.width) (G.ofUInt32 extent.height)) G.litNear G.litFar
    let proj := G.negate11 proj
    let ubo : UniformBufferObject := { view := view, proj := proj }
    { b with uniform :=
        { b.uniform with data := memcpy b.uniform.data ubo.bytes sizeofUniformBufferObject } }
  else b

/-- The body of the loop of buffers.cpp:119-129 for the `uint32_t` counter `i`: the record
lives at `i * dynamicAlignment` bytes from `uboData.model`, a 64-bit product. -/
def writeInstance {F V : Type} (G : Glm F V) (dynamicAlignment : Nat) (scratch : Mem)
    (i : Nat) (model : Model F V) : Mem :=
  let modelMat := mul64 (i % 2 ^ 32) dynamicAlignment
  let scratch := storeObj scratch modelMat (G.translate G.identity model.position)
  let scratch :=
    if G.neZero model.rotationAngle then
      storeObj scratch modelMat
        (G.rotate (loadObj 64 scratch modelMat) (G.radians model.rotationAngle) model.rotationAxis)
    else scratch
  let scratch :=
    if G.neZero model.scale then
      storeObj scratch modelMat (G.scale (loadObj 64 scratch modelMat) (G.vec3 model.scale))
    else scratch
  scratch

/-- The loop of buffers.cpp:119-129 from counter value `i` over the remaining models. The
counter is a `uint32_t`; the loop ends only for vectors shorter than `2 ^ 32`, for which the
counter never wraps. -/
def writeInstances {F V : Type} (G : Glm F V) (dynamicAlignment : Nat) :
    Nat → List (Model F V) → Mem → Mem
  | _, [], scratch => scratch
  | i, model :: rest, scratch =>
    writeInstances G dynamicAlignment (i + 1) rest
      (writeInstance G dynamicAlignment scratch i model)

/-- `Adren::Buffers::updateDynamicUniformBuffer` (buffers.cpp:118-132). An `index` past the
end of `dynamicUniform` is undefined behaviour in the source and leaves the vector as it is
here. -/
def updateDynamicUniformBuffer {F V : Type} (G : Glm F V) (b : Buffers (List Buffer))
    (index : Nat) (models : List (Model F V)) : Buffers (List Buffer) :=
  let scratch := writeInstances G b.dynamicAlignment 0 models b.scratch
  let dynamicUniform :=
    match b.dynamicUniform[index]? with
    | some buf =>
      b.dynamicUniform.set index
        { buf with data := memcpy buf.data scratch (mul64 b.dynamicAlignment models.length) }
    | none => b.dynamicUniform
  { b with scratch := scratch, dynamicUniform := dynamicUniform }

/-! ## renderer.cpp -/

/-- The loop of renderer.cpp:144-150. `count modelSize children` is `Model::count`, which is
not part of the sources at hand: it receives the `uint32_t` counter and a node's children and
yields the counter's new value. -/
def countNodes {F V : Type} (count : Nat → List Node → Nat) (models : List (Model F V)) : Nat :=
  models.foldl
    (fun modelSize model =>
      model.nodes.foldl
        (fun modelSize node => (count modelSize node.children % 2 ^ 32 + 1) % 2 ^ 32)
        modelSize)
    0

/-- The stride computation of renderer.cpp:138-142 for the reported
`minUniformBufferOffsetAlignment`. -/
def reloadScene_align (minUboAlignment : Nat) : Nat :=
  let align := sizeofMat4
  if minUboAlignment > 0 then
    and64 (sub64 (add64 align minUboAlignment) 1) (not64 (sub64 minUboAlignment 1))
  else align

/-- `Adren::Renderer::reloadScene` (renderer.cpp:122-161). `count` and `alignedAlloc` are
as in `countNodes` and `createUniformBuffers`. -/
def reloadScene {F V : Type} (count : Nat → List Node → Nat)
    (alignedAlloc : Nat → Nat → Option Mem)
    (d : Device) (b : Buffers Buffer) (models : List (Model F V)) :
    Option (Device × Buffers Buffer) :=
  let d := vmaDestroyBuffer d b.index.buffer
  let d := vmaDestroyBuffer d b.vertex.buffer
  let d := vmaDestroyBuffer d b.dynamicUniform.buffer
  let mb := createModelBuffers d b.vertex b.index models
  let d := mb.device
  let minUboAlignment := d.minUniformBufferOffsetAlignment
  let align := reloadScene_align minUboAlignment
  let modelSize := countNodes count models
  let size := mul64 align modelSize
  let d := d.log (Action.alignedAlloc size align)
  match alignedAlloc size align with
  | none => none
  | some scratch =>
    let r := createBuffer d size [BufferUsage.uniformBuffer] [MemoryProperty.hostVisible]
      { b.dynamicUniform with align := align, size := size } VmaMemoryUsage.auto
    let d := r.1.log (Action.vmaMapMemory r.2.buffer)
    let d := d.log (Action.memcpy r.2.buffer size)
    let dynamicUniform := { r.2 with data := memcpy r.2.data scratch size }
    let d := d.log Action.createSets
    some (d, { b with vertex := mb.vertex, index := mb.index, dynamicUniform := dynamicUniform,
                      scratch := scratch })

/-! ## Specification-side definitions -/

/-- Ceiling of `x / a`. -/
def ceilDiv (x a : Nat) : Nat := (x + a - 1) / a

/-- The stride in the words of the specification: `ceil(naturalSize / a) * a`. -/
def ceilingStride (naturalSize minAlignment : Nat) : Nat :=
  ceilDiv naturalSize minAlignment * minAlignment

/-- The matrix of one instance in the words of the specification: translate the identity
by the position, then rotate if and only if the angle is not zero, then scale if and only if
the scale is not zero. -/
def instanceMatrix {F V : Type} (G : Glm F V) (model : Model F V) : Mat4 :=
  let m := G.translate G.identity model.position
  let m := if G.neZero model.rotationAngle then
    G.rotate m (G.radians model.rotationAngle) model.rotationAxis else m
  if G.neZero model.scale then G.scale m (G.vec3 model.scale) else m

/-- The concatenation, in list order, of each model's vertices. -/
def allVertices {F V : Type} (models : List (Model F V)) : List Vertex :=
  (models.map Model.vertices).flatten

/-- The concatenation, in list order, of each model's indices. -/
def allIndices {F V : Type} (models : List (Model F V)) : List Index :=
  (models.map Model.indices).flatten

/-- The sum of the vertex counts of models `0 .. i-1`. -/
def vertexOffset {F V : Type} (models : List (Model F V)) (i : Nat) : Nat :=
  ((models.take i).map (fun model => model.vertices.length)).sum

/-- The sum of the index counts of models `0 .. i-1`. -/
def indexOffset {F V : Type} (models : List (Model F V)) (i : Nat) : Nat :=
  ((models.take i).map (fun model => model.indices.length)).sum

/-- The `bufferInfo.size` of every `vmaCreateBuffer` call of a log, in call order. -/
def createdSizes : List Action → List Nat
  | [] => []
  | Action.vmaCreateBuffer size _ _ _ _ _ :: rest => size :: createdSizes rest
  | _ :: rest => createdSizes rest

/-- Whether a call makes the CPU wait for the GPU: `endSingleTimeCommands` blocks until the
submitted copy has run; the other three are the Vulkan idle and fence waits. -/
def Action.isWait : Action → Bool
  | Action.endSingleTimeCommands => true
  | Action.vkDeviceWaitIdle => true
  | Action.vkQueueWaitIdle => true
  | Action.vkWaitForFences => true
  | _ => false

/-- Whether every `vmaDestroyBuffer` of a handle of `current` in the log comes after a wait;
`waited` tells whether a wait was already seen. -/
def destroysAfterWait (current : List Nat) : Bool → List Action → Bool
  | _, [] => true
  | waited, Action.vmaDestroyBuffer handle :: rest =>
    (waited || !current.contains handle) && destroysAfterWait current waited rest
  | waited, a :: rest => destroysAfterWait current (waited || a.isWait) rest

/-! ## Live buffers along a log -/

/-- Whether a usage marks a staging buffer: the buffer is a transfer source. -/
def isStaging (usage : List BufferUsage) : Bool := usage.contains BufferUsage.transferSrc

/-- The set of live buffers, each with the usage it was created with, after the calls of a
log were applied to the set `live`: a successful `vmaCreateBuffer` adds its buffer, a
`vmaDestroyBuffer` removes the buffer with that handle, every other call leaves the set. -/
def replay : List (Nat × List BufferUsage) → List Action → List (Nat × List BufferUsage)
  | live, [] => live
  | live, Action.vmaCreateBuffer _ usage _ _ VkResult.success handle :: rest =>
    replay ((handle, usage) :: live) rest
  | live, Action.vmaDestroyBuffer handle :: rest =>
    replay (live.filter (fun e => e.1 != handle)) rest
  | live, _ :: rest => replay live rest

/-- The number of staging buffers in a set of live buffers. -/
def stagingCount (live : List (Nat × List BufferUsage)) : Nat :=
  live.countP (fun e => isStaging e.2)

/-- The handles written by the `vmaCreateBuffer` calls for staging buffers, in call order. -/
def stagingHandles : List Action → List Nat
  | [] => []
  | Action.vmaCreateBuffer _ usage _ _ _ handle :: rest =>
    if isStaging usage then handle :: stagingHandles rest else stagingHandles rest
  | _ :: rest => stagingHandles rest

/-- The source handles of the `vkCmdCopyBuffer` calls of a log, in call order. -/
def copySources : List Action → List Nat
  | [] => []
  | Action.vkCmdCopyBuffer src _ _ :: rest => src :: copySources rest
  | _ :: rest => copySources rest

/-- The handles passed to the `vmaDestroyBuffer` calls of a log, in call order. -/
def destroyedHandles : List Action → List Nat
  | [] => []
  | Action.vmaDestroyBuffer handle :: rest => handle :: destroyedHandles rest
  | _ :: rest => destroyedHandles rest

/-- Whether every `vkCmdCopyBuffer` of the log is followed at once by the
`endSingleTimeCommands` that completes it and then at once by the `vmaDestroyBuffer` of its
source. -/
def copiesThenDestroys : List Action → Bool
  | [] => true
  | Action.vkCmdCopyBuffer src _ _ :: rest =>
    (match rest with
      | Action.endSingleTimeCommands :: Action.vmaDestroyBuffer handle :: _ => handle == src
      | _ => false) && copiesThenDestroys rest
  | _ :: rest => copiesThenDestroys rest

/-- The log of one staged upload of `size` bytes (buffers.cpp:20-34 and 38-51): create the
staging buffer, fill it, create the destination, copy, destroy the staging buffer. `rs`, `hs`,
`rd`, `hd` are the results and handles of the two `vmaCreateBuffer` calls. -/
def uploadLog (size : Nat) (dstUsage : List BufferUsage) (rs : VkResult) (hs : Nat)
    (rd : VkResult) (hd : Nat) : List Action :=
  [ Action.vmaCreateBuffer size [BufferUsage.transferSrc]
      [MemoryProperty.hostVisible, MemoryProperty.hostCoherent] VmaMemoryUsage.cpuToGpu rs hs,
    Action.vmaMapMemory hs,
    Action.memcpy hs size,
    Action.vmaUnmapMemory hs,
    Action.vmaCreateBuffer size dstUsage [MemoryProperty.deviceLocal] VmaMemoryUsage.gpuOnly
      rd hd,
    Action.beginSingleTimeCommands,
    Action.vkCmdCopyBuffer hs hd size,
    Action.endSingleTimeCommands,
    Action.vmaDestroyBuffer hs ]

/-! ## Concrete data -/

/-- A small interpretation of `Glm` over integers: floats are integers, vectors are integer
triples, and each matrix operation marks a different byte of the matrix. -/
def sampleGlm : Glm Int (Int × Int × Int) where
  neZero := fun x => x != 0
  radians := fun x => x
  div := fun x y => x / y
  ofUInt32 := fun n => Int.ofNat n
  lit110 := 110
  litNear := 0
  litFar := 10000
  vec3 := fun s => (s, s, s)
  vadd := fun u v => (u.1 + v.1, u.2.1 + v.2.1, u.2.2 + v.2.2)
  identity := fun t => if t.val % 20 = 0 then 1 else 0
  translate := fun m v => fun t => if t.val = 48 then Fin.ofNat v.1.toNat else m t
  rotate := fun m a _ => fun t => if t.val = 1 then Fin.ofNat a.toNat else m t
  scale := fun m v => fun t => if t.val = 2 then Fin.ofNat v.1.toNat else m t
  lookAt := fun eye _ _ => fun t => if t.val = 3 then Fin.ofNat eye.1.toNat else 0
  perspective := fun fovy _ _ _ => fun t => if t.val = 4 then Fin.ofNat fovy.toNat else 0
  negate11 := fun m => fun t => if t.val = 20 then 0 - m t else m t

/-- A vertex whose bytes all equal `c`. -/
def sampleVertex (c : Byte) : Vertex := fun _ => c

/-- An index whose low byte is `c`. -/
def sampleIndex (c : Byte) : Index := fun t => if t.val = 0 then c else 0

/-- Instance 0 of the scenario of the specification: at the origin, scale 0, no rotation; one
triangle, one node without children. -/
def instance0 : Model Int (Int × Int × Int) where
  position := (0, 0, 0)
  rotationAngle := 0
  rotationAxis := (0, 1, 0)
  scale := 0
  nodes := [Node.mk []]
  vertices := [sampleVertex 1, sampleVertex 2, sampleVertex 3]
  indices := [sampleIndex 0, sampleIndex 1, sampleIndex 2]

/-- Instance 1 of the scenario of the specification: at `(1, 0, 0)`, rotated by 90 degrees
about Y; one quad, two root nodes. -/
def instance1 : Model Int (Int × Int × Int) where
  position := (1, 0, 0)
  rotationAngle := 90
  rotationAxis := (0, 1, 0)
  scale := 0
  nodes := [Node.mk [], Node.mk []]
  vertices := [sampleVertex 4, sampleVertex 5, sampleVertex 6, sampleVertex 7]
  indices := [sampleIndex 0, sampleIndex 1, sampleIndex 2, sampleIndex 2, sampleIndex 3,
    sampleIndex 0]

/-- A model without any node (an asset whose scene is empty). -/
def emptyModel : Model Int (Int × Int × Int) where
  position := (0, 0, 0)
  rotationAngle := 0
  rotationAxis := (0, 1, 0)
  scale := 0
  nodes := []
  vertices := []
  indices := []

/-- Memory whose bytes are all zero. -/
def zeroMem : Mem := fun _ => 0

/-- A host allocator that always succeeds and hands out zeroed memory. -/
def sampleAlloc : Nat → Nat → Option Mem := fun _ _ => some zeroMem

/-- A device that reports the alignment 256 and on which every allocation succeeds. -/
def sampleDevice : Device where
  minUniformBufferOffsetAlignment := 256
  results := []
  garbage := fun _ => zeroMem
  next := 0
  live := []
  trace := []

/-- The device `sampleDevice` with its first `vmaCreateBuffer` call failing. -/
def failingDevice : Device :=
  { sampleDevice with results := [VkResult.errorOutOfDeviceMemory] }

/-- The state of `Adren::Buffers` before any buffer was created. -/
def emptyBuffers : Buffers (List Buffer) where
  vertex := Buffer.null
  index := Buffer.null
  uniform := Buffer.null
  dynamicUniform := []
  scratch := zeroMem
  dynamicAlignment := 0

/-- A state of `Adren::Buffers` with stride 256 and two frame slots. -/
def sampleBuffers : Buffers (List Buffer) where
  vertex := Buffer.null
  index := Buffer.null
  uniform := Buffer.null
  dynamicUniform := [Buffer.null, Buffer.null]
  scratch := zeroMem
  dynamicAlignment := 256

/-- A state of `Adren::Buffers` as renderer.cpp uses it, with live buffers 1, 2 and 3. -/
def sceneBuffers : Buffers Buffer where
  vertex := { Buffer.null with buffer := 1 }
  index := { Buffer.null with buffer := 2 }
  uniform := Buffer.null
  dynamicUniform := { Buffer.null with buffer := 3 }
  scratch := zeroMem
  dynamicAlignment := 0

/-! ## Alignment arithmetic -/

theorem land_high_mask (y n k : Nat) (hy : y < 2 ^ n) (hk : k ≤ n) :
    y &&& (2 ^ n - 2 ^ k) = y / 2 ^ k * 2 ^ k := by
  apply Nat.eq_of_testBit_eq
  intro i
  have h1 : 2 ^ n - 2 ^ k = 2 ^ n - ((2 ^ k - 1) + 1) := by
    have := Nat.two_pow_pos k
    omega
  have h2 : 2 ^ k - 1 < 2 ^ n := by
    have := Nat.two_pow_pos k
    have := Nat.pow_le_pow_right (show 0 < 2 by decide) hk
    omega
  rw [Nat.testBit_and, h1, Nat.testBit_two_pow_sub_succ h2, Nat.testBit_two_pow_sub_one,
    Nat.mul_comm, Nat.testBit_mul_pow_two, ← Nat.shiftRight_eq_div_pow, Nat.testBit_shiftRight]
  by_cases hik : i < k
  · simp [hik, Nat.not_le_of_lt hik]
  · have hki : k ≤ i := Nat.le_of_not_lt hik
    by_cases hin : i < n
    · simp [hik, hki, hin, Nat.add_sub_cancel' hki]
    · have : y < 2 ^ i :=
          lt_of_lt_of_le hy (Nat.pow_le_pow_right (by decide) (Nat.le_of_not_lt hin))
      simp [hik, hki, hin, Nat.add_sub_cancel' hki, Nat.testBit_lt_two_pow this]


theorem alignedStride_eq_floor (x k : Nat) (h : x + 2 ^ k - 1 < 2 ^ 64) :
    alignedStride x (2 ^ k) = (x + 2 ^ k - 1) / 2 ^ k * 2 ^ k := by
  have hpos : 0 < 2 ^ k := Nat.two_pow_pos k
  have hle : 2 ^ k ≤ 2 ^ 64 := by omega
  have hk : k ≤ 64 := (Nat.pow_le_pow_iff_right (by decide)).1 hle
  have hmask := land_high_mask (x + 2 ^ k - 1) 64 k h hk
  unfold alignedStride and64 sub64 add64 not64
  rw [if_pos hpos]
  generalize 2 ^ k = a at *
  rcases Nat.lt_or_ge a (2 ^ 64) with hlt | hge
  · have e1 : ((x + a) % 2 ^ 64 % 2 ^ 64 + 2 ^ 64 - 1 % 2 ^ 64) % 2 ^ 64 % 2 ^ 64 = x + a - 1 := by
      omega
    have e2 : (2 ^ 64 - 1 - (a % 2 ^ 64 + 2 ^ 64 - 1 % 2 ^ 64) % 2 ^ 64 % 2 ^ 64) % 2 ^ 64
        = 2 ^ 64 - a := by omega
    rw [e1, e2, hmask]
  · have ha : a = 2 ^ 64 := by omega
    have hx : x = 0 := by omega
    subst ha hx
    decide


theorem floor_mul_props (x a : Nat) (ha : 0 < a) :
    a ∣ (x + a - 1) / a * a ∧ x ≤ (x + a - 1) / a * a ∧ (x + a - 1) / a * a < x + a ∧
      ∀ m, a ∣ m → x ≤ m → (x + a - 1) / a * a ≤ m := by
  have hdm := Nat.div_add_mod (x + a - 1) a
  have hmod := Nat.mod_lt (x + a - 1) ha
  have hcomm : a * ((x + a - 1) / a) = (x + a - 1) / a * a := Nat.mul_comm _ _
  refine ⟨Dvd.intro_left _ rfl, by omega, by omega, ?_⟩
  rintro m ⟨c, rfl⟩ hx
  rw [Nat.mul_comm a c]
  apply Nat.mul_le_mul_right
  rw [Nat.div_le_iff_le_mul_add_pred ha]
  have : c * a = a * c := Nat.mul_comm _ _
  omega

theorem createUniformBuffers_dynamicAlignment_eq (a : Nat) :
    createUniformBuffers_dynamicAlignment a = alignedStride sizeofMat4 a := rfl

theorem reloadScene_align_eq (a : Nat) :
    reloadScene_align a = alignedStride sizeofMat4 a := rfl

theorem pow2_of_and_pred (a : Nat) (ha : 0 < a) (h : a &&& (a - 1) = 0) : ∃ k, a = 2 ^ k := by
  induction a using Nat.strong_induction_on with
  | _ a ih =>
    have hdiv : a / 2 &&& (a - 1) / 2 = 0 := by
      rw [← Nat.and_div_two, h]
    rcases Nat.mod_two_eq_zero_or_one a with h0 | h1
    · have e : (a - 1) / 2 = a / 2 - 1 := by omega
      rw [e] at hdiv
      obtain ⟨j, hj⟩ := ih (a / 2) (by omega) (by omega) hdiv
      refine ⟨j + 1, ?_⟩
      rw [Nat.pow_succ, ← hj]
      omega
    · have e : (a - 1) / 2 = a / 2 := by omega
      rw [e, Nat.and_self] at hdiv
      exact ⟨0, by simp; omega⟩

theorem mask_and_pred (y a : Nat) (ha : 0 < a) (hlt : a < 2 ^ 64) :
    (y &&& (2 ^ 64 - a)) &&& (a - 1) = 0 := by
  apply Nat.eq_of_testBit_eq
  intro i
  have h1 : 2 ^ 64 - a = 2 ^ 64 - ((a - 1) + 1) := by omega
  have h2 : a - 1 < 2 ^ 64 := by omega
  rw [Nat.testBit_and, Nat.testBit_and, h1, Nat.testBit_two_pow_sub_succ h2]
  cases (a - 1).testBit i <;> simp

theorem alignedStride_and_pred (x a : Nat) (ha : 0 < a) (hb : x + a - 1 < 2 ^ 64) :
    alignedStride x a &&& (a - 1) = 0 := by
  rcases Nat.lt_or_ge a (2 ^ 64) with hlt | hge
  · unfold alignedStride and64 sub64 add64 not64
    rw [if_pos ha]
    have e2 : (2 ^ 64 - 1 - (a % 2 ^ 64 + 2 ^ 64 - 1 % 2 ^ 64) % 2 ^ 64 % 2 ^ 64) % 2 ^ 64
        = 2 ^ 64 - a := by omega
    rw [e2]
    exact mask_and_pred _ a ha hlt
  · have ha : a = 2 ^ 64 := by omega
    have hx : x = 0 := by omega
    subst ha hx
    decide

theorem alignedStride_small (a : Nat) (ha : 0 < a) (h64 : a ≤ 64)
    (h : alignedStride 64 a = ceilingStride 64 a) : ∃ k, a = 2 ^ k := by
  have key : ∀ b : Fin 65, 0 < b.val → alignedStride 64 b.val = ceilingStride 64 b.val →
      b.val = 1 ∨ b.val = 2 ∨ b.val = 4 ∨ b.val = 8 ∨ b.val = 16 ∨ b.val = 32 ∨ b.val = 64 := by
    decide
  rcases key ⟨a, by omega⟩ ha h with h | h | h | h | h | h | h
  · exact ⟨0, h⟩
  · exact ⟨1, h⟩
  · exact ⟨2, h⟩
  · exact ⟨3, h⟩
  · exact ⟨4, h⟩
  · exact ⟨5, h⟩
  · exact ⟨6, h⟩

theorem alignedStride_ceiling_iff (a : Nat) (ha : 0 < a) (hb : 64 + a - 1 < 2 ^ 64) :
    alignedStride 64 a = ceilingStride 64 a ↔ ∃ k, a = 2 ^ k := by
  constructor
  · intro h
    rcases Nat.lt_or_ge 64 a with hbig | hsmall
    · have hc : ceilingStride 64 a = a := by
        unfold ceilingStride ceilDiv
        have : (64 + a - 1) / a = 1 := by
          exact Nat.div_eq_of_lt_le (by omega) (by omega)
        rw [this, Nat.one_mul]
      have := alignedStride_and_pred 64 a ha hb
      rw [h, hc] at this
      exact pow2_of_and_pred a ha this
    · exact alignedStride_small a ha hsmall h
  · rintro ⟨k, rfl⟩
    rw [alignedStride_eq_floor 64 k hb]
    rfl



theorem exists_bit_succ (h : Nat) : ∃ j, (h + 1).testBit j = true ∧ h.testBit j = false := by
  induction h using Nat.strong_induction_on with
  | _ h ih =>
    rcases Nat.mod_two_eq_zero_or_one h with h0 | h1
    · refine ⟨0, ?_, ?_⟩
      · rw [Nat.testBit_zero]; simp; omega
      · rw [Nat.testBit_zero]; simp; omega
    · obtain ⟨j, hj1, hj2⟩ := ih (h / 2) (by omega)
      refine ⟨j + 1, ?_, ?_⟩
      · rw [Nat.testBit_succ]
        have : (h + 1) / 2 = h / 2 + 1 := by omega
        rw [this]; exact hj1
      · rw [Nat.testBit_succ]; exact hj2

theorem alignedStride_ge_mat4 (a : Nat) (hb : 64 + a - 1 < 2 ^ 64) :
    sizeofMat4 ≤ alignedStride sizeofMat4 a := by
  unfold sizeofMat4
  rcases Nat.eq_zero_or_pos a with h0 | ha
  · subst h0; decide
  · obtain ⟨j, hj1, hj2⟩ := exists_bit_succ ((a - 1) / 2 ^ 6)
    have e1 : (64 + a - 1) / 2 ^ 6 = (a - 1) / 2 ^ 6 + 1 := by omega
    have hy : (64 + a - 1).testBit (6 + j) = true := by
      rw [← Nat.testBit_shiftRight, Nat.shiftRight_eq_div_pow, e1]; exact hj1
    have hm : (a - 1).testBit (6 + j) = false := by
      rw [← Nat.testBit_shiftRight, Nat.shiftRight_eq_div_pow]; exact hj2
    have hlt : 6 + j < 64 := by
      by_contra hcon
      have : 64 + a - 1 < 2 ^ (6 + j) :=
        lt_of_lt_of_le hb (Nat.pow_le_pow_right (by decide) (by omega))
      rw [Nat.testBit_lt_two_pow this] at hy
      exact Bool.noConfusion hy
    have hr : alignedStride 64 a = (64 + a - 1) &&& (2 ^ 64 - ((a - 1) + 1)) := by
      unfold alignedStride and64 sub64 add64 not64
      rw [if_pos ha]
      have e1 : ((64 + a) % 2 ^ 64 % 2 ^ 64 + 2 ^ 64 - 1 % 2 ^ 64) % 2 ^ 64 % 2 ^ 64
          = 64 + a - 1 := by omega
      have e2 : (2 ^ 64 - 1 - (a % 2 ^ 64 + 2 ^ 64 - 1 % 2 ^ 64) % 2 ^ 64 % 2 ^ 64) % 2 ^ 64
          = 2 ^ 64 - ((a - 1) + 1) := by omega
      rw [e1, e2]
    have hbit : (alignedStride 64 a).testBit (6 + j) = true := by
      rw [hr, Nat.testBit_and, Nat.testBit_two_pow_sub_succ (by omega), hy, hm]
      simp [hlt]
    have h1 := Nat.testBit_implies_ge hbit
    have h2 : 2 ^ 6 ≤ 2 ^ (6 + j) := Nat.pow_le_pow_right (by decide) (by omega)
    omega

/-! ## C1, C2: the stride -/

/-- C1. For a power-of-two alignment `a` and a natural size `x` with `x + a - 1 < 2 ^ 64`, the
bitmask form `(x + a - 1) & ~(a - 1)` is a multiple of `a`, is at least `x`, is below `x + a`
and is the least multiple of `a` that is at least `x`; for `sizeof(mat4) = 64` and `a = 256`
the stride computed by `createUniformBuffers` is 256. -/
theorem alignedStride_power_of_two (x a : Nat) (hpow : ∃ k, a = 2 ^ k)
    (hb : x + a - 1 < 2 ^ 64) :
    a ∣ alignedStride x a ∧ x ≤ alignedStride x a ∧ alignedStride x a < x + a ∧
      (∀ m, a ∣ m → x ≤ m → alignedStride x a ≤ m) ∧
      createUniformBuffers_dynamicAlignment 256 = 256 := by
  obtain ⟨k, rfl⟩ := hpow
  rw [alignedStride_eq_floor x k hb]
  obtain ⟨h1, h2, h3, h4⟩ := floor_mul_props x (2 ^ k) (Nat.two_pow_pos k)
  exact ⟨h1, h2, h3, h4, by decide⟩

/-- Witness of C1 at `x = 64`, `a = 256`. -/
theorem alignedStride_power_of_two_witness :
    (∃ k, 256 = 2 ^ k) ∧ 64 + 256 - 1 < 2 ^ 64 ∧
      (256 ∣ alignedStride 64 256 ∧ 64 ≤ alignedStride 64 256 ∧
        alignedStride 64 256 < 64 + 256 ∧
        (∀ m, 256 ∣ m → 64 ≤ m → alignedStride 64 256 ≤ m) ∧
        createUniformBuffers_dynamicAlignment 256 = 256) :=
  ⟨⟨8, by decide⟩, by decide, alignedStride_power_of_two 64 256 ⟨8, by decide⟩ (by decide)⟩

/-- C2, counterexample. The alignment 3 is not a power of two; `createUniformBuffers` and
`reloadScene` both compute the stride 64 for it, which is neither `ceil(64 / 3) * 3 = 66` nor
a multiple of 3. -/
theorem stride_non_power_of_two_counterexample :
    (¬ ∃ k, 3 = 2 ^ k) ∧ createUniformBuffers_dynamicAlignment 3 = 64 ∧
      reloadScene_align 3 = 64 ∧ ceilingStride sizeofMat4 3 = 66 ∧ 64 % 3 ≠ 0 := by
  refine ⟨?_, by decide, by decide, by decide, by decide⟩
  rintro ⟨k, hk⟩
  match k, hk with
  | 0, hk => simp at hk
  | 1, hk => simp at hk
  | k + 2, hk =>
    rw [Nat.pow_add] at hk
    omega

/-- C2, amended. For every alignment `a > 0` with `64 + a - 1 < 2 ^ 64`, `createUniformBuffers`
and `reloadScene` compute one and the same stride, the bitmask form applied to 64 without any
test of `a`, and that stride equals `ceil(64 / a) * a` exactly when `a` is a power of two. -/
theorem stride_ceiling_iff_power_of_two (a : Nat) (ha : 0 < a) (hb : 64 + a - 1 < 2 ^ 64) :
    reloadScene_align a = createUniformBuffers_dynamicAlignment a ∧
      createUniformBuffers_dynamicAlignment a =
        and64 (sub64 (add64 sizeofMat4 a) 1) (not64 (sub64 a 1)) ∧
      (createUniformBuffers_dynamicAlignment a = ceilingStride sizeofMat4 a ↔
        ∃ k, a = 2 ^ k) := by
  refine ⟨rfl, ?_, alignedStride_ceiling_iff a ha hb⟩
  unfold createUniformBuffers_dynamicAlignment
  simp only [gt_iff_lt, ha, if_true]

/-- Witness of the amended C2 at `a = 3`. -/
theorem stride_ceiling_iff_power_of_two_witness :
    0 < 3 ∧ 64 + 3 - 1 < 2 ^ 64 ∧
      (reloadScene_align 3 = createUniformBuffers_dynamicAlignment 3 ∧
        createUniformBuffers_dynamicAlignment 3 =
          and64 (sub64 (add64 sizeofMat4 3) 1) (not64 (sub64 3 1)) ∧
        (createUniformBuffers_dynamicAlignment 3 = ceilingStride sizeofMat4 3 ↔
          ∃ k, 3 = 2 ^ k)) :=
  ⟨by decide, by decide, stride_ceiling_iff_power_of_two 3 (by decide) (by decide)⟩

/-! ## Memory lemmas -/

theorem loadObj_storeObj_same {n : Nat} (m : Mem) (off : Nat) (x : Obj n) :
    loadObj n (storeObj m off x) off = x := by
  funext t
  have ht := t.isLt
  simp only [loadObj, storeObj]
  rw [dif_pos ⟨by omega, by omega⟩]
  congr 1
  apply Fin.ext
  simp

theorem storeObj_storeObj_same {n : Nat} (m : Mem) (off : Nat) (x y : Obj n) :
    storeObj (storeObj m off x) off y = storeObj m off y := by
  funext b
  simp only [storeObj]
  split <;> rfl

theorem storeObj_outside {n : Nat} (m : Mem) (off : Nat) (x : Obj n) (b : Nat)
    (h : b < off ∨ off + n ≤ b) : storeObj m off x b = m b := by
  simp only [storeObj]
  rw [dif_neg (by omega)]

theorem writeInstance_eq {F V : Type} (G : Glm F V) (s : Nat) (scratch : Mem) (i : Nat)
    (model : Model F V) :
    writeInstance G s scratch i model =
      storeObj scratch (mul64 (i % 2 ^ 32) s) (instanceMatrix G model) := by
  unfold writeInstance instanceMatrix
  cases G.neZero model.rotationAngle <;> cases G.neZero model.scale <;>
    simp [loadObj_storeObj_same, storeObj_storeObj_same]

theorem offset_exact (i n s : Nat) (hi : i < n) (hlen : n < 2 ^ 32) (hsz : n * s < 2 ^ 64) :
    mul64 (i % 2 ^ 32) s = i * s := by
  unfold mul64
  have h1 : i % 2 ^ 32 = i := Nat.mod_eq_of_lt (by omega)
  have h2 : i * s ≤ n * s := Nat.mul_le_mul_right s (Nat.le_of_lt hi)
  rw [h1]
  exact Nat.mod_eq_of_lt (by omega)

theorem writeInstances_below {F V : Type} (G : Glm F V) (s : Nat) (rest : List (Model F V)) :
    ∀ (i : Nat) (scratch : Mem), i + rest.length < 2 ^ 32 → (i + rest.length) * s < 2 ^ 64 →
      ∀ b, b < i * s → writeInstances G s i rest scratch b = scratch b := by
  induction rest with
  | nil => intro i scratch _ _ b _; rfl
  | cons model rest ih =>
    intro i scratch hlen hsz b hb
    simp only [List.length_cons] at hlen hsz
    simp only [writeInstances]
    have hle : i * s ≤ (i + 1) * s := Nat.mul_le_mul_right s (by omega)
    rw [ih (i + 1) _ (by omega) (by rw [Nat.add_assoc, Nat.add_comm 1]; exact hsz) b (by omega),
      writeInstance_eq, offset_exact i (i + (rest.length + 1)) s (by omega) hlen hsz]
    exact storeObj_outside _ _ _ _ (Or.inl hb)

theorem writeInstances_record {F V : Type} (G : Glm F V) (s : Nat) (hs : sizeofMat4 ≤ s)
    (rest : List (Model F V)) :
    ∀ (i : Nat) (scratch : Mem), i + rest.length < 2 ^ 32 → (i + rest.length) * s < 2 ^ 64 →
      ∀ (k : Nat) (hk : k < rest.length),
        loadObj 64 (writeInstances G s i rest scratch) ((i + k) * s)
          = instanceMatrix G rest[k] := by
  induction rest with
  | nil => intro i scratch _ _ k hk; simp at hk
  | cons model rest ih =>
    intro i scratch hlen hsz k hk
    simp only [List.length_cons] at hlen hsz hk
    simp only [writeInstances]
    have hsz2 : (i + 1 + rest.length) * s < 2 ^ 64 := by
      rw [Nat.add_assoc, Nat.add_comm 1]; exact hsz
    cases k with
    | zero =>
      have hle : i * s + s = (i + 1) * s := by rw [Nat.add_mul, Nat.one_mul]
      simp only [Nat.add_zero, List.getElem_cons_zero]
      rw [← loadObj_storeObj_same scratch (i * s) (instanceMatrix G model)]
      funext t
      have ht := t.isLt
      unfold sizeofMat4 at hs
      simp only [loadObj]
      rw [writeInstances_below G s rest (i + 1) _ (by omega) hsz2 _ (by omega),
        writeInstance_eq, offset_exact i (i + (rest.length + 1)) s (by omega) hlen hsz]
    | succ k =>
      have := ih (i + 1) (writeInstance G s scratch i model) (by omega) hsz2 k (by omega)
      have e : i + 1 + k = i + (k + 1) := by omega
      rw [e] at this
      simpa only [List.getElem_cons_succ] using this

/-! ## Geometry lemmas -/

theorem gather_from {F V : Type} (models : List (Model F V)) :
    ∀ acc : List Vertex × List Index,
      models.foldl (fun acc model => (acc.1 ++ model.vertices, acc.2 ++ model.indices)) acc
        = (acc.1 ++ allVertices models, acc.2 ++ allIndices models) := by
  induction models with
  | nil => intro acc; simp [allVertices, allIndices]
  | cons model rest ih =>
    intro acc
    simp only [List.foldl_cons, ih, allVertices, allIndices, List.map_cons, List.flatten_cons,
      List.append_assoc]

theorem gather_eq {F V : Type} (models : List (Model F V)) :
    gather models = (allVertices models, allIndices models) := by
  unfold gather
  rw [gather_from]
  simp

theorem loadObj_arrayBytes {n : Nat} (hn : 0 < n) (xs : List (Obj n)) (k : Nat)
    (hk : k < xs.length) : loadObj n (arrayBytes xs) (n * k) = xs[k] := by
  funext t
  have ht := t.isLt
  have h1 : (n * k + t.val) / n = k := by
    rw [Nat.mul_add_div hn, Nat.div_eq_of_lt ht, Nat.add_zero]
  have h2 : (n * k + t.val) % n = t.val := by
    rw [Nat.mul_add_mod, Nat.mod_eq_of_lt ht]
  simp only [loadObj, arrayBytes, dif_pos hn, h1, List.getElem?_eq_getElem hk]
  exact congrArg xs[k] (Fin.ext h2)

theorem loadObj_congr (n : Nat) (m m2 : Mem) (off size : Nat) (hoff : off + n ≤ size)
    (h : ∀ b, b < size → m b = m2 b) : loadObj n m off = loadObj n m2 off := by
  funext t
  have ht := t.isLt
  exact h _ (by omega)

theorem flatten_getElem {α : Type} (L : List (List α)) :
    ∀ (i : Nat) (hi : i < L.length) (j : Nat) (hj : j < L[i].length),
      L.flatten[((L.take i).map List.length).sum + j]? = some (L[i][j]) := by
  induction L with
  | nil => intro i hi; simp at hi
  | cons l L ih =>
    intro i hi j hj
    cases i with
    | zero =>
      simp only [List.getElem_cons_zero] at hj
      simp [List.getElem?_append_left hj]
    | succ i =>
      simp only [List.getElem_cons_succ] at hj
      simp only [List.length_cons] at hi
      have := ih i (by omega) j hj
      simp only [List.take_succ_cons, List.map_cons, List.sum_cons, List.flatten_cons,
        List.getElem_cons_succ]
      rw [Nat.add_assoc, List.getElem?_append_right (by omega), Nat.add_sub_cancel_left]
      exact this

/-! ## Device lemmas -/

theorem vmaCreateBuffer_trace (d : Device) (size : Nat) (usage : List BufferUsage)
    (properties : List MemoryProperty) (vmaUsage : VmaMemoryUsage) :
    (vmaCreateBuffer d size usage properties vmaUsage).1.trace =
      d.trace ++ [Action.vmaCreateBuffer size usage properties vmaUsage
        (vmaCreateBuffer d size usage properties vmaUsage).2.1
        (vmaCreateBuffer d size usage properties vmaUsage).2.2] := by
  unfold vmaCreateBuffer
  split <;> rfl

theorem vmaCreateBuffer_min (d : Device) (size : Nat) (usage : List BufferUsage)
    (properties : List MemoryProperty) (vmaUsage : VmaMemoryUsage) :
    (vmaCreateBuffer d size usage properties vmaUsage).1.minUniformBufferOffsetAlignment =
      d.minUniformBufferOffsetAlignment := by
  unfold vmaCreateBuffer
  split <;> rfl

theorem createBuffer_trace (d : Device) (size : Nat) (usage : List BufferUsage)
    (properties : List MemoryProperty) (buffer : Buffer) (vmaUsage : VmaMemoryUsage) :
    (createBuffer d size usage properties buffer vmaUsage).1.trace =
      d.trace ++ [Action.vmaCreateBuffer size usage properties vmaUsage
        (vmaCreateBuffer d size usage properties vmaUsage).2.1
        (createBuffer d size usage properties buffer vmaUsage).2.buffer] :=
  vmaCreateBuffer_trace d size usage properties vmaUsage

theorem createBuffer_min (d : Device) (size : Nat) (usage : List BufferUsage)
    (properties : List MemoryProperty) (buffer : Buffer) (vmaUsage : VmaMemoryUsage) :
    (createBuffer d size usage properties buffer vmaUsage).1.minUniformBufferOffsetAlignment =
      d.minUniformBufferOffsetAlignment :=
  vmaCreateBuffer_min d size usage properties vmaUsage

theorem createBuffer_size (d : Device) (size : Nat) (usage : List BufferUsage)
    (properties : List MemoryProperty) (buffer : Buffer) (vmaUsage : VmaMemoryUsage) :
    (createBuffer d size usage properties buffer vmaUsage).2.size = size := rfl

theorem log_trace (d : Device) (a : Action) : (d.log a).trace = d.trace ++ [a] := rfl

theorem log_min (d : Device) (a : Action) :
    (d.log a).minUniformBufferOffsetAlignment = d.minUniformBufferOffsetAlignment := rfl

theorem vmaDestroyBuffer_trace (d : Device) (h : Nat) :
    (vmaDestroyBuffer d h).trace = d.trace ++ [Action.vmaDestroyBuffer h] := rfl

theorem vmaDestroyBuffer_min (d : Device) (h : Nat) :
    (vmaDestroyBuffer d h).minUniformBufferOffsetAlignment =
      d.minUniformBufferOffsetAlignment := rfl

theorem createdSizes_append (xs ys : List Action) :
    createdSizes (xs ++ ys) = createdSizes xs ++ createdSizes ys := by
  induction xs with
  | nil => rfl
  | cons a xs ih =>
    cases a <;> simp [createdSizes, ih]

theorem createModelBuffers_min {F V : Type} (d : Device) (vertex index : Buffer)
    (models : List (Model F V)) :
    (createModelBuffers d vertex index models).device.minUniformBufferOffsetAlignment =
      d.minUniformBufferOffsetAlignment := by
  simp only [createModelBuffers, stage, copyBuffer, vmaDestroyBuffer_min, log_min,
    createBuffer_min]

theorem createModelBuffers_trace {F V : Type} (d : Device) (vertex index : Buffer)
    (models : List (Model F V)) :
    ∃ rest, (createModelBuffers d vertex index models).device.trace = d.trace ++ rest := by
  simp only [createModelBuffers, stage, copyBuffer, vmaDestroyBuffer_trace, log_trace,
    createBuffer_trace, List.append_assoc]
  exact ⟨_, rfl⟩

theorem length_resize (v : List Buffer) (n : Nat) : (resize v n).length = n := by
  simp only [resize, List.length_append, List.length_take, List.length_replicate]
  omega

theorem createDynamicUniforms_spec (size copySize : Nat) (scratch : Mem) :
    ∀ (count i : Nat) (d : Device) (dyn : List Buffer), i + count ≤ dyn.length →
      (createDynamicUniforms size copySize scratch count i d dyn).2.length = dyn.length ∧
      (∀ j, j < i + count → i ≤ j →
        ∃ buf, (createDynamicUniforms size copySize scratch count i d dyn).2[j]? = some buf ∧
          buf.size = size) ∧
      (∀ j, j < i →
        (createDynamicUniforms size copySize scratch count i d dyn).2[j]? = dyn[j]?) ∧
      createdSizes (createDynamicUniforms size copySize scratch count i d dyn).1.trace =
        createdSizes d.trace ++ List.replicate count size := by
  intro count
  induction count with
  | zero =>
    intro i d dyn _
    refine ⟨rfl, ?_, fun _ _ => rfl, by simp [createDynamicUniforms]⟩
    intro j h1 h2
    omega
  | succ count ih =>
    intro i d dyn hlen
    simp only [createDynamicUniforms]
    generalize hr : createBuffer d size [BufferUsage.uniformBuffer]
      [MemoryProperty.hostVisible] (dyn.getD i Buffer.null) VmaMemoryUsage.cpuToGpu = r
    have hrs : r.2.size = size := by rw [← hr]; rfl
    have hrt : createdSizes r.1.trace = createdSizes d.trace ++ [size] := by
      rw [← hr, createBuffer_trace, createdSizes_append]
      rfl
    obtain ⟨h1, h2, h3, h4⟩ := ih (i + 1)
      ((r.1.log (Action.vmaMapMemory r.2.buffer)).log (Action.memcpy r.2.buffer copySize))
      (dyn.set i { r.2 with data := memcpy r.2.data scratch copySize })
      (by rw [List.length_set]; omega)
    refine ⟨by rw [h1, List.length_set], ?_, ?_, ?_⟩
    · intro j hj1 hj2
      rcases Nat.eq_or_lt_of_le hj2 with heq | hlt
      · subst heq
        rw [h3 i (by omega), List.getElem?_set_self (by omega)]
        exact ⟨_, rfl, hrs⟩
      · exact h2 j (by omega) (by omega)
    · intro j hj
      rw [h3 j (by omega), List.getElem?_set_ne (by omega)]
    · rw [h4]
      simp only [log_trace, createdSizes_append, createdSizes, hrt,
        List.append_nil, List.append_assoc, List.replicate_succ, List.singleton_append]

/-! ## C3, C8: the per-instance records -/

/-- C3. After `updateDynamicUniformBuffer`, for every index `i` below the number of instances,
the 64-byte record at byte offset `i * dynamicAlignment` of the scratch array is the matrix of
instance `i`: the translation of the identity by its position, rotated if and only if its
angle is not zero, scaled if and only if its scale is not zero; with angle and scale both zero
it is the pure translation. The stride is at least `sizeof(mat4)`, the vector is shorter than
`2 ^ 32` and the scratch size fits 64 bits. -/
theorem updateDynamicUniformBuffer_records {F V : Type} (G : Glm F V)
    (b : Buffers (List Buffer)) (index : Nat) (models : List (Model F V))
    (hstride : sizeofMat4 ≤ b.dynamicAlignment) (hlen : models.length < 2 ^ 32)
    (hsz : models.length * b.dynamicAlignment < 2 ^ 64) (i : Nat) (hi : i < models.length) :
    loadObj 64 (updateDynamicUniformBuffer G b index models).scratch (i * b.dynamicAlignment)
        = instanceMatrix G models[i] ∧
      (G.neZero models[i].rotationAngle = false → G.neZero models[i].scale = false →
        loadObj 64 (updateDynamicUniformBuffer G b index models).scratch
          (i * b.dynamicAlignment) = G.translate G.identity models[i].position) := by
  have key : loadObj 64 (updateDynamicUniformBuffer G b index models).scratch
      (i * b.dynamicAlignment) = instanceMatrix G models[i] := by
    have := writeInstances_record G b.dynamicAlignment hstride models 0 b.scratch
      (by omega) (by simpa using hsz) i hi
    simpa [updateDynamicUniformBuffer] using this
  refine ⟨key, ?_⟩
  intro hr hs
  rw [key]
  simp [instanceMatrix, hr, hs]

/-- Witness of C3 on the scenario of the specification: two instances, stride 256, the
record of instance 1 at byte offset 256. -/
theorem updateDynamicUniformBuffer_records_witness :
    sizeofMat4 ≤ sampleBuffers.dynamicAlignment ∧ [instance0, instance1].length < 2 ^ 32 ∧
    [instance0, instance1].length * sampleBuffers.dynamicAlignment < 2 ^ 64 ∧
    1 < [instance0, instance1].length ∧
    loadObj 64 (updateDynamicUniformBuffer sampleGlm sampleBuffers 0
        [instance0, instance1]).scratch (1 * 256) = instanceMatrix sampleGlm instance1 ∧
      (sampleGlm.neZero instance1.rotationAngle = false →
        sampleGlm.neZero instance1.scale = false →
        loadObj 64 (updateDynamicUniformBuffer sampleGlm sampleBuffers 0
          [instance0, instance1]).scratch (1 * 256)
            = sampleGlm.translate sampleGlm.identity instance1.position) :=
  ⟨by decide, by decide, by decide, by decide,
    updateDynamicUniformBuffer_records sampleGlm sampleBuffers 0 [instance0, instance1]
      (by decide) (by decide) (by decide) 1 (by decide)⟩

/-- C8. For a slot `index` below the number of dynamic-uniform buffers, after
`updateDynamicUniformBuffer index models` every one of the first
`dynamicAlignment * models.size()` bytes of `dynamicUniform[index]` equals the byte of the
scratch array at the same offset, as the scratch array stands after the matrices were
written. The byte count fits 64 bits. -/
theorem updateDynamicUniformBuffer_upload {F V : Type} (G : Glm F V)
    (b : Buffers (List Buffer)) (index : Nat) (models : List (Model F V))
    (hindex : index < b.dynamicUniform.length)
    (hsz : models.length * b.dynamicAlignment < 2 ^ 64) :
    ∃ buf, (updateDynamicUniformBuffer G b index models).dynamicUniform[index]? = some buf ∧
      ∀ byte, byte < b.dynamicAlignment * models.length →
        buf.data byte = (updateDynamicUniformBuffer G b index models).scratch byte := by
  have hmul : mul64 b.dynamicAlignment models.length = b.dynamicAlignment * models.length := by
    unfold mul64
    rw [Nat.mul_comm]
    exact Nat.mod_eq_of_lt hsz
  simp only [updateDynamicUniformBuffer, List.getElem?_eq_getElem hindex]
  refine ⟨_, List.getElem?_set_self hindex, ?_⟩
  intro byte hbyte
  simp only [memcpy, hmul, hbyte, if_true]

/-- Witness of C8 on the scenario of the specification, slot 1 of two. -/
theorem updateDynamicUniformBuffer_upload_witness :
    1 < sampleBuffers.dynamicUniform.length ∧
    [instance0, instance1].length * sampleBuffers.dynamicAlignment < 2 ^ 64 ∧
    ∃ buf, (updateDynamicUniformBuffer sampleGlm sampleBuffers 1
        [instance0, instance1]).dynamicUniform[1]? = some buf ∧
      ∀ byte, byte < sampleBuffers.dynamicAlignment * [instance0, instance1].length →
        buf.data byte = (updateDynamicUniformBuffer sampleGlm sampleBuffers 1
          [instance0, instance1]).scratch byte :=
  ⟨by decide, by decide,
    updateDynamicUniformBuffer_upload sampleGlm sampleBuffers 1 [instance0, instance1]
      (by decide) (by decide)⟩

/-! ## C4: geometry upload -/

theorem createModelBuffers_bytes {F V : Type} (d : Device) (vertex index : Buffer)
    (models : List (Model F V)) :
    (∀ b, b < sizeofVertex * (allVertices models).length →
      (createModelBuffers d vertex index models).vStaging.data b
        = arrayBytes (allVertices models) b ∧
      (createModelBuffers d vertex index models).vertex.data b
        = arrayBytes (allVertices models) b) ∧
    (∀ b, b < sizeofIndex * (allIndices models).length →
      (createModelBuffers d vertex index models).iStaging.data b
        = arrayBytes (allIndices models) b ∧
      (createModelBuffers d vertex index models).index.data b
        = arrayBytes (allIndices models) b) := by
  constructor
  · intro b hb
    simp only [createModelBuffers, createBuffer, stage, copyBuffer, memcpy, gather_eq, hb,
      if_true, and_self]
  · intro b hb
    simp only [createModelBuffers, createBuffer, stage, copyBuffer, memcpy, gather_eq, hb,
      if_true, and_self]

theorem createModelBuffers_sizes {F V : Type} (d : Device) (vertex index : Buffer)
    (models : List (Model F V)) :
    (createModelBuffers d vertex index models).vStaging.size
      = sizeofVertex * (allVertices models).length ∧
    (createModelBuffers d vertex index models).vertex.size
      = sizeofVertex * (allVertices models).length ∧
    (createModelBuffers d vertex index models).iStaging.size
      = sizeofIndex * (allIndices models).length ∧
    (createModelBuffers d vertex index models).index.size
      = sizeofIndex * (allIndices models).length := by
  simp only [createModelBuffers, createBuffer, stage, copyBuffer, gather_eq, and_self]

/-- C4. The vertex bytes that `createModelBuffers` stages and uploads are those of the
concatenation, in list order, of the models' vertices, and likewise for the indices: element
`k` of either buffer is element `k` of the concatenation. The vertex and index counts are the
sums of the models' counts, the buffers are created with `sizeof(Vertex) * totalVertices` and
`sizeof(uint32_t) * totalIndices` bytes, and element `j` of model `i` sits at element offset
(sum of the counts of models `0 .. i-1`) `+ j`. -/
theorem createModelBuffers_payload {F V : Type} (d : Device) (vertex index : Buffer)
    (models : List (Model F V)) :
    (∀ b, b < sizeofVertex * (allVertices models).length →
      (createModelBuffers d vertex index models).vStaging.data b
        = arrayBytes (allVertices models) b ∧
      (createModelBuffers d vertex index models).vertex.data b
        = arrayBytes (allVertices models) b) ∧
    (∀ b, b < sizeofIndex * (allIndices models).length →
      (createModelBuffers d vertex index models).iStaging.data b
        = arrayBytes (allIndices models) b ∧
      (createModelBuffers d vertex index models).index.data b = arrayBytes (allIndices models) b) ∧
    (∀ k (hk : k < (allVertices models).length),
      loadObj 44 (createModelBuffers d vertex index models).vertex.data (sizeofVertex * k)
        = (allVertices models)[k]) ∧
    (∀ k (hk : k < (allIndices models).length),
      loadObj 4 (createModelBuffers d vertex index models).index.data (sizeofIndex * k)
        = (allIndices models)[k]) ∧
    (allVertices models).length = (models.map (fun model => model.vertices.length)).sum ∧
    (allIndices models).length = (models.map (fun model => model.indices.length)).sum ∧
    (createModelBuffers d vertex index models).vStaging.size
      = sizeofVertex * (allVertices models).length ∧
    (createModelBuffers d vertex index models).vertex.size
      = sizeofVertex * (allVertices models).length ∧
    (createModelBuffers d vertex index models).iStaging.size
      = sizeofIndex * (allIndices models).length ∧
    (createModelBuffers d vertex index models).index.size
      = sizeofIndex * (allIndices models).length ∧
    (∀ i (hi : i < models.length) j (hj : j < models[i].vertices.length),
      loadObj 44 (createModelBuffers d vertex index models).vertex.data
        (sizeofVertex * (vertexOffset models i + j)) = models[i].vertices[j]) ∧
    (∀ i (hi : i < models.length) j (hj : j < models[i].indices.length),
      loadObj 4 (createModelBuffers d vertex index models).index.data
        (sizeofIndex * (indexOffset models i + j)) = models[i].indices[j]) := by
  obtain ⟨hv, hi⟩ := createModelBuffers_bytes d vertex index models
  obtain ⟨s1, s2, s3, s4⟩ := createModelBuffers_sizes d vertex index models
  have loadV : ∀ k (hk : k < (allVertices models).length),
      loadObj 44 (createModelBuffers d vertex index models).vertex.data (sizeofVertex * k)
        = (allVertices models)[k] := by
    intro k hk
    rw [← loadObj_arrayBytes (by decide) (allVertices models) k hk]
    refine loadObj_congr 44 _ _ _ (sizeofVertex * (allVertices models).length) ?_
      (fun b hb => (hv b hb).2)
    have : sizeofVertex * (k + 1) ≤ sizeofVertex * (allVertices models).length :=
      Nat.mul_le_mul_left _ hk
    unfold sizeofVertex at this ⊢
    omega
  have loadI : ∀ k (hk : k < (allIndices models).length),
      loadObj 4 (createModelBuffers d vertex index models).index.data (sizeofIndex * k)
        = (allIndices models)[k] := by
    intro k hk
    rw [← loadObj_arrayBytes (by decide) (allIndices models) k hk]
    refine loadObj_congr 4 _ _ _ (sizeofIndex * (allIndices models).length) ?_
      (fun b hb => (hi b hb).2)
    have : sizeofIndex * (k + 1) ≤ sizeofIndex * (allIndices models).length :=
      Nat.mul_le_mul_left _ hk
    unfold sizeofIndex at this ⊢
    omega
  refine ⟨hv, hi, loadV, loadI, ?_, ?_, s1, s2, s3, s4, ?_, ?_⟩
  · simp [allVertices, List.length_flatten, Function.comp_def]
  · simp [allIndices, List.length_flatten, Function.comp_def]
  · intro i hi j hj
    have h := flatten_getElem (models.map Model.vertices) i (by simpa using hi) j
      (by simpa using hj)
    have e : ((List.take i (models.map Model.vertices)).map List.length).sum
        = vertexOffset models i := by
      simp [vertexOffset, ← List.map_take, Function.comp_def]
    rw [e] at h
    have hk : vertexOffset models i + j < (allVertices models).length := by
      by_contra hcon
      have : (allVertices models)[vertexOffset models i + j]? = none :=
        List.getElem?_eq_none (by omega)
      simp [allVertices, h] at this
    rw [loadV _ hk]
    have h2 : (allVertices models)[vertexOffset models i + j]?
        = some (allVertices models)[vertexOffset models i + j] :=
      List.getElem?_eq_getElem hk
    simp only [allVertices] at h2
    rw [h] at h2
    simpa [allVertices] using (Option.some.inj h2).symm
  · intro i hi j hj
    have h := flatten_getElem (models.map Model.indices) i (by simpa using hi) j
      (by simpa using hj)
    have e : ((List.take i (models.map Model.indices)).map List.length).sum
        = indexOffset models i := by
      simp [indexOffset, ← List.map_take, Function.comp_def]
    rw [e] at h
    have hk : indexOffset models i + j < (allIndices models).length := by
      by_contra hcon
      have : (allIndices models)[indexOffset models i + j]? = none :=
        List.getElem?_eq_none (by omega)
      simp [allIndices, h] at this
    rw [loadI _ hk]
    have h2 : (allIndices models)[indexOffset models i + j]?
        = some (allIndices models)[indexOffset models i + j] :=
      List.getElem?_eq_getElem hk
    simp only [allIndices] at h2
    rw [h] at h2
    simpa [allIndices] using (Option.some.inj h2).symm

/-! ## C5: allocation failure -/

/-- C5, evaluation of the code at the failing input. With the first `vmaCreateBuffer` call
reporting `VK_ERROR_OUT_OF_DEVICE_MEMORY`, `createModelBuffers` on one triangle still issues
every later step, the first three of them on the null handle of the failed staging buffer,
and ends with a vertex and an index buffer; `createUniformBuffers` returns a state as well. -/
theorem createModelBuffers_ignores_allocation_failure :
    (vmaCreateBuffer failingDevice 132 [BufferUsage.transferSrc]
        [MemoryProperty.hostVisible, MemoryProperty.hostCoherent] VmaMemoryUsage.cpuToGpu).2.1
      = VkResult.errorOutOfDeviceMemory ∧
    (createModelBuffers failingDevice Buffer.null Buffer.null [instance0]).device.trace =
      [ Action.vmaCreateBuffer 132 [BufferUsage.transferSrc]
          [MemoryProperty.hostVisible, MemoryProperty.hostCoherent] VmaMemoryUsage.cpuToGpu
          VkResult.errorOutOfDeviceMemory 0,
        Action.vmaMapMemory 0,
        Action.memcpy 0 132,
        Action.vmaUnmapMemory 0,
        Action.vmaCreateBuffer 132 [BufferUsage.transferDst, BufferUsage.vertexBuffer]
          [MemoryProperty.deviceLocal] VmaMemoryUsage.gpuOnly VkResult.success 1,
        Action.beginSingleTimeCommands,
        Action.vkCmdCopyBuffer 0 1 132,
        Action.endSingleTimeCommands,
        Action.vmaDestroyBuffer 0,
        Action.vmaCreateBuffer 12 [BufferUsage.transferSrc]
          [MemoryProperty.hostVisible, MemoryProperty.hostCoherent] VmaMemoryUsage.cpuToGpu
          VkResult.success 2,
        Action.vmaMapMemory 2,
        Action.memcpy 2 12,
        Action.vmaUnmapMemory 2,
        Action.vmaCreateBuffer 12 [BufferUsage.transferDst, BufferUsage.indexBuffer]
          [MemoryProperty.deviceLocal] VmaMemoryUsage.gpuOnly VkResult.success 3,
        Action.beginSingleTimeCommands,
        Action.vkCmdCopyBuffer 2 3 12,
        Action.endSingleTimeCommands,
        Action.vmaDestroyBuffer 2 ] ∧
    (createModelBuffers failingDevice Buffer.null Buffer.null [instance0]).vertex.buffer = 1 ∧
    (createModelBuffers failingDevice Buffer.null Buffer.null [instance0]).index.buffer = 3 ∧
    ((createUniformBuffers sampleAlloc zeroMem failingDevice
        emptyBuffers [0, 1] [instance0]).map (fun r => r.1.trace.take 3)) =
      some [ Action.vmaCreateBuffer 128 [BufferUsage.uniformBuffer]
          [MemoryProperty.hostVisible, MemoryProperty.hostCoherent] VmaMemoryUsage.gpuOnly
          VkResult.errorOutOfDeviceMemory 0,
        Action.vmaMapMemory 0,
        Action.memcpy 0 128 ] := by
  refine ⟨rfl, rfl, rfl, rfl, rfl⟩

/-! ## C7, C6: uniform buffers and their rebuild -/

theorem createUniformBuffers_some {F V : Type} (alignedAlloc : Nat → Nat → Option Mem)
    (ubo : Mem) (d : Device) (b : Buffers (List Buffer)) (images : List Nat)
    (models : List (Model F V)) (scratch : Mem)
    (halloc : alignedAlloc
      (mul64 models.length
        (createUniformBuffers_dynamicAlignment d.minUniformBufferOffsetAlignment))
      (createUniformBuffers_dynamicAlignment d.minUniformBufferOffsetAlignment) = some scratch) :
    ∃ d2 b2, createUniformBuffers alignedAlloc ubo d b images models = some (d2, b2) ∧
      b2.dynamicAlignment =
        createUniformBuffers_dynamicAlignment d.minUniformBufferOffsetAlignment ∧
      b2.dynamicUniform.length = images.length ∧
      (∀ buf ∈ b2.dynamicUniform, buf.size = mul64 models.length b2.dynamicAlignment) ∧
      b2.uniform.size = sizeofUniformBufferObject ∧
      createdSizes d2.trace = createdSizes d.trace ++
        sizeofUniformBufferObject ::
          List.replicate images.length (mul64 models.length b2.dynamicAlignment) := by
  simp only [createUniformBuffers, log_min, createBuffer_min, halloc]
  refine ⟨_, _, rfl, rfl, ?_⟩
  obtain ⟨h1, h2, _, h4⟩ := createDynamicUniforms_spec
    (mul64 models.length
      (createUniformBuffers_dynamicAlignment d.minUniformBufferOffsetAlignment))
    (mul64 (createUniformBuffers_dynamicAlignment d.minUniformBufferOffsetAlignment)
      models.length) scratch images.length 0
    ((((createBuffer d sizeofUniformBufferObject [BufferUsage.uniformBuffer]
      [MemoryProperty.hostVisible, MemoryProperty.hostCoherent] b.uniform
      VmaMemoryUsage.gpuOnly).1.log
        (Action.vmaMapMemory (createBuffer d sizeofUniformBufferObject
          [BufferUsage.uniformBuffer] [MemoryProperty.hostVisible, MemoryProperty.hostCoherent]
          b.uniform VmaMemoryUsage.gpuOnly).2.buffer)).log
        (Action.memcpy (createBuffer d sizeofUniformBufferObject
          [BufferUsage.uniformBuffer] [MemoryProperty.hostVisible, MemoryProperty.hostCoherent]
          b.uniform VmaMemoryUsage.gpuOnly).2.buffer sizeofUniformBufferObject)).log
        (Action.alignedAlloc (mul64 models.length
          (createUniformBuffers_dynamicAlignment d.minUniformBufferOffsetAlignment))
          (createUniformBuffers_dynamicAlignment d.minUniformBufferOffsetAlignment)))
    (resize b.dynamicUniform images.length) (by rw [length_resize]; omega)
  refine ⟨by rw [h1, length_resize], ?_, rfl, ?_⟩
  · intro buf hbuf
    obtain ⟨j, hj⟩ := List.mem_iff_getElem?.1 hbuf
    have hjlt : j < images.length := by
      by_contra hcon
      rw [List.getElem?_eq_none (by rw [h1, length_resize]; omega)] at hj
      exact Option.noConfusion hj
    obtain ⟨buf2, hb2, hs2⟩ := h2 j (by omega) (Nat.zero_le j)
    rw [hj] at hb2
    rw [Option.some.inj hb2, hs2]
  · rw [h4]
    simp only [log_trace, createBuffer_trace, createdSizes_append, createdSizes,
      List.append_nil, List.append_assoc, List.singleton_append]


/-- C7. When the host allocation succeeds and `models.size() * dynamicAlignment` fits 64
bits, `createUniformBuffers` returns a state whose stride is the one computed from
`sizeof(mat4)` and the device's minimum alignment, whose `dynamicUniform` has exactly one
element per swapchain image, each created with `dynamicAlignment * models.size()` bytes, and
whose camera buffer was created with `sizeof(UniformBufferObject)` bytes; the buffers created
by the call are that one camera buffer followed by the per-image buffers. -/
theorem createUniformBuffers_buffers {F V : Type} (alignedAlloc : Nat → Nat → Option Mem)
    (ubo : Mem) (d : Device) (b : Buffers (List Buffer)) (images : List Nat)
    (models : List (Model F V)) (scratch : Mem)
    (halloc : alignedAlloc
      (mul64 models.length
        (createUniformBuffers_dynamicAlignment d.minUniformBufferOffsetAlignment))
      (createUniformBuffers_dynamicAlignment d.minUniformBufferOffsetAlignment) = some scratch)
    (hsz : models.length *
      createUniformBuffers_dynamicAlignment d.minUniformBufferOffsetAlignment < 2 ^ 64) :
    ∃ d2 b2, createUniformBuffers alignedAlloc ubo d b images models = some (d2, b2) ∧
      b2.dynamicAlignment =
        createUniformBuffers_dynamicAlignment d.minUniformBufferOffsetAlignment ∧
      b2.dynamicUniform.length = images.length ∧
      (∀ buf ∈ b2.dynamicUniform, buf.size = b2.dynamicAlignment * models.length) ∧
      b2.uniform.size = sizeofUniformBufferObject ∧
      createdSizes d2.trace = createdSizes d.trace ++
        sizeofUniformBufferObject ::
          List.replicate images.length (b2.dynamicAlignment * models.length) := by
  have hmul : mul64 models.length
      (createUniformBuffers_dynamicAlignment d.minUniformBufferOffsetAlignment) =
      createUniformBuffers_dynamicAlignment d.minUniformBufferOffsetAlignment
        * models.length := by
    unfold mul64
    rw [Nat.mod_eq_of_lt hsz, Nat.mul_comm]
  obtain ⟨d2, b2, h0, h1, h2, h3, h4, h5⟩ :=
    createUniformBuffers_some alignedAlloc ubo d b images models scratch halloc
  rw [h1, hmul] at h3 h5
  exact ⟨d2, b2, h0, h1, h2, by rw [h1]; exact h3, h4, by rw [h1]; exact h5⟩

/-- Witness of C7: two swapchain images, the two instances of the scenario, alignment 256. -/
theorem createUniformBuffers_buffers_witness :
    sampleAlloc
      (mul64 [instance0, instance1].length
        (createUniformBuffers_dynamicAlignment sampleDevice.minUniformBufferOffsetAlignment))
      (createUniformBuffers_dynamicAlignment sampleDevice.minUniformBufferOffsetAlignment)
        = some zeroMem ∧
    [instance0, instance1].length *
      createUniformBuffers_dynamicAlignment sampleDevice.minUniformBufferOffsetAlignment
        < 2 ^ 64 ∧
    ∃ d2 b2, createUniformBuffers sampleAlloc zeroMem
        sampleDevice emptyBuffers [0, 1] [instance0, instance1] = some (d2, b2) ∧
      b2.dynamicAlignment =
        createUniformBuffers_dynamicAlignment sampleDevice.minUniformBufferOffsetAlignment ∧
      b2.dynamicUniform.length = [0, 1].length ∧
      (∀ buf ∈ b2.dynamicUniform,
        buf.size = b2.dynamicAlignment * [instance0, instance1].length) ∧
      b2.uniform.size = sizeofUniformBufferObject ∧
      createdSizes d2.trace = createdSizes sampleDevice.trace ++
        sizeofUniformBufferObject ::
          List.replicate [0, 1].length
            (b2.dynamicAlignment * [instance0, instance1].length) :=
  ⟨rfl, by decide,
    createUniformBuffers_buffers sampleAlloc zeroMem
      sampleDevice emptyBuffers [0, 1] [instance0, instance1] zeroMem rfl (by decide)⟩

theorem reloadScene_some {F V : Type} (count : Nat → List Node → Nat)
    (alignedAlloc : Nat → Nat → Option Mem) (d : Device) (b : Buffers Buffer)
    (models : List (Model F V)) (scratch : Mem)
    (halloc : alignedAlloc
      (mul64 (reloadScene_align d.minUniformBufferOffsetAlignment) (countNodes count models))
      (reloadScene_align d.minUniformBufferOffsetAlignment) = some scratch) :
    ∃ d2 b2, reloadScene count alignedAlloc d b models = some (d2, b2) ∧
      b2.dynamicUniform.align = reloadScene_align d.minUniformBufferOffsetAlignment ∧
      b2.dynamicUniform.size =
        mul64 (reloadScene_align d.minUniformBufferOffsetAlignment) (countNodes count models) ∧
      ∃ rest, d2.trace = d.trace ++
        [Action.vmaDestroyBuffer b.index.buffer, Action.vmaDestroyBuffer b.vertex.buffer,
          Action.vmaDestroyBuffer b.dynamicUniform.buffer] ++ rest := by
  obtain ⟨rest, hrest⟩ := createModelBuffers_trace
    (vmaDestroyBuffer (vmaDestroyBuffer (vmaDestroyBuffer d b.index.buffer) b.vertex.buffer)
      b.dynamicUniform.buffer) b.vertex b.index models
  simp only [reloadScene, createModelBuffers_min, vmaDestroyBuffer_min, halloc]
  refine ⟨_, _, rfl, rfl, rfl, ?_⟩
  simp only [log_trace, createBuffer_trace, hrest, vmaDestroyBuffer_trace, List.append_assoc,
    List.singleton_append, List.cons_append, List.nil_append]
  exact ⟨_, rfl⟩

/-- C6, counterexample. For the one-model set `[emptyModel]` on a device reporting the
alignment 256, `createUniformBuffers` creates its dynamic-uniform buffer with 256 bytes, while
`reloadScene` creates it with 0 bytes whatever `Model::count` computes, since the model has
no node. For `[instance1]`, one model with two root nodes, the build size is again 256 and
the rebuild size is 512 when `Model::count` adds nothing for a node without children. -/
theorem rebuild_size_counterexample :
    (createUniformBuffers sampleAlloc zeroMem sampleDevice emptyBuffers [0]
        [emptyModel]).map (fun r => r.2.dynamicUniform.map Buffer.size) = some [256] ∧
      (¬ ∃ count : Nat → List Node → Nat,
        (reloadScene count sampleAlloc sampleDevice sceneBuffers [emptyModel]).map
          (fun r => r.2.dynamicUniform.size) = some 256) ∧
      (createUniformBuffers sampleAlloc zeroMem sampleDevice emptyBuffers [0]
        [instance1]).map (fun r => r.2.dynamicUniform.map Buffer.size) = some [256] ∧
      (reloadScene (fun modelSize _ => modelSize) sampleAlloc sampleDevice sceneBuffers
        [instance1]).map (fun r => r.2.dynamicUniform.size) = some 512 := by
  refine ⟨by decide, ?_, by decide, by decide⟩
  rintro ⟨count, h⟩
  have h0 : (reloadScene count sampleAlloc sampleDevice sceneBuffers [emptyModel]).map
      (fun r => r.2.dynamicUniform.size) = some 0 := rfl
  rw [h0] at h
  exact absurd (Option.some.inj h) (by decide)

/-- C6, amended. On devices reporting the same minimum alignment and with the host
allocations succeeding, the original build and the rebuild use the same stride; the build
creates every dynamic-uniform buffer with `models.size() * stride` bytes, the rebuild creates
its one with `stride * modelSize` bytes, where `modelSize` is the node count of
renderer.cpp:144-150 (64-bit products); the sizes agree when that count equals
`models.size()`. -/
theorem rebuild_size {F V : Type} (count : Nat → List Node → Nat)
    (alignedAlloc : Nat → Nat → Option Mem) (ubo : Mem) (d1 d2 : Device)
    (b1 : Buffers (List Buffer)) (b2 : Buffers Buffer) (images : List Nat)
    (models : List (Model F V)) (s1 s2 : Mem)
    (hdev : d2.minUniformBufferOffsetAlignment = d1.minUniformBufferOffsetAlignment)
    (h1 : alignedAlloc
      (mul64 models.length
        (createUniformBuffers_dynamicAlignment d1.minUniformBufferOffsetAlignment))
      (createUniformBuffers_dynamicAlignment d1.minUniformBufferOffsetAlignment) = some s1)
    (h2 : alignedAlloc
      (mul64 (reloadScene_align d2.minUniformBufferOffsetAlignment) (countNodes count models))
      (reloadScene_align d2.minUniformBufferOffsetAlignment) = some s2) :
    ∃ r1 r2, createUniformBuffers alignedAlloc ubo d1 b1 images models = some r1 ∧
      reloadScene count alignedAlloc d2 b2 models = some r2 ∧
      r2.2.dynamicUniform.align = r1.2.dynamicAlignment ∧
      (∀ buf ∈ r1.2.dynamicUniform, buf.size = mul64 models.length r1.2.dynamicAlignment) ∧
      r2.2.dynamicUniform.size = mul64 r1.2.dynamicAlignment (countNodes count models) ∧
      (countNodes count models = models.length →
        ∀ buf ∈ r1.2.dynamicUniform, r2.2.dynamicUniform.size = buf.size) := by
  obtain ⟨d3, b3, e1, a1, _, z1, _, _⟩ :=
    createUniformBuffers_some alignedAlloc ubo d1 b1 images models s1 h1
  obtain ⟨d4, b4, e2, a2, z2, _⟩ := reloadScene_some count alignedAlloc d2 b2 models s2 h2
  have hstride : b4.dynamicUniform.align = b3.dynamicAlignment := by
    rw [a1, a2, hdev]; rfl
  have hsize : b4.dynamicUniform.size = mul64 b3.dynamicAlignment (countNodes count models) := by
    rw [z2, a1, hdev]; rfl
  refine ⟨(d3, b3), (d4, b4), e1, e2, hstride, z1, hsize, ?_⟩
  intro hc buf hbuf
  rw [z1 buf hbuf, hsize, hc]
  unfold mul64
  rw [Nat.mul_comm]

/-- Witness of the amended C6 on the scenario of the specification, where the rebuild counts
three nodes for two models. -/
theorem rebuild_size_witness :
    sampleDevice.minUniformBufferOffsetAlignment = sampleDevice.minUniformBufferOffsetAlignment ∧
    sampleAlloc
      (mul64 [instance0, instance1].length
        (createUniformBuffers_dynamicAlignment sampleDevice.minUniformBufferOffsetAlignment))
      (createUniformBuffers_dynamicAlignment sampleDevice.minUniformBufferOffsetAlignment)
        = some zeroMem ∧
    sampleAlloc
      (mul64 (reloadScene_align sampleDevice.minUniformBufferOffsetAlignment)
        (countNodes (fun modelSize _ => modelSize) [instance0, instance1]))
      (reloadScene_align sampleDevice.minUniformBufferOffsetAlignment) = some zeroMem ∧
    ∃ r1 r2, createUniformBuffers sampleAlloc zeroMem sampleDevice emptyBuffers [0, 1]
        [instance0, instance1] = some r1 ∧
      reloadScene (fun modelSize _ => modelSize) sampleAlloc sampleDevice sceneBuffers
        [instance0, instance1] = some r2 ∧
      r2.2.dynamicUniform.align = r1.2.dynamicAlignment ∧
      (∀ buf ∈ r1.2.dynamicUniform,
        buf.size = mul64 [instance0, instance1].length r1.2.dynamicAlignment) ∧
      r2.2.dynamicUniform.size = mul64 r1.2.dynamicAlignment
        (countNodes (fun modelSize _ => modelSize) [instance0, instance1]) ∧
      (countNodes (fun modelSize _ => modelSize) [instance0, instance1]
          = [instance0, instance1].length →
        ∀ buf ∈ r1.2.dynamicUniform, r2.2.dynamicUniform.size = buf.size) :=
  ⟨rfl, rfl, rfl,
    rebuild_size (fun modelSize _ => modelSize) sampleAlloc zeroMem sampleDevice sampleDevice
      emptyBuffers sceneBuffers [0, 1] [instance0, instance1] zeroMem zeroMem rfl rfl rfl⟩

/-! ## C9: destruction order in reloadScene -/

/-- C9, counterexample. On a device with an empty log and the live buffers 1, 2, 3 held by
`vertex`, `index` and `dynamicUniform`, the log of `reloadScene` starts with the three
destructions and its first wait comes after them: not every destruction of a current buffer
is preceded by a wait. -/
theorem reloadScene_destroys_before_wait :
    (reloadScene (fun modelSize _ => modelSize) sampleAlloc sampleDevice sceneBuffers
        [instance0]).map (fun r => (r.1.trace.take 3,
          destroysAfterWait [sceneBuffers.index.buffer, sceneBuffers.vertex.buffer,
            sceneBuffers.dynamicUniform.buffer] false r.1.trace)) =
      some ([Action.vmaDestroyBuffer 2, Action.vmaDestroyBuffer 1, Action.vmaDestroyBuffer 3],
        false) := by
  decide

/-- C9, amended. When the host allocation succeeds, the first three calls `reloadScene`
issues are `vmaDestroyBuffer` of the index, the vertex and the dynamic-uniform buffer, in
that order: no wait is issued or checked by `reloadScene` before them. -/
theorem reloadScene_destroys_first {F V : Type} (count : Nat → List Node → Nat)
    (alignedAlloc : Nat → Nat → Option Mem) (d : Device) (b : Buffers Buffer)
    (models : List (Model F V)) (scratch : Mem)
    (halloc : alignedAlloc
      (mul64 (reloadScene_align d.minUniformBufferOffsetAlignment) (countNodes count models))
      (reloadScene_align d.minUniformBufferOffsetAlignment) = some scratch) :
    ∃ d2 b2, reloadScene count alignedAlloc d b models = some (d2, b2) ∧
      ∃ rest, d2.trace = d.trace ++
        [Action.vmaDestroyBuffer b.index.buffer, Action.vmaDestroyBuffer b.vertex.buffer,
          Action.vmaDestroyBuffer b.dynamicUniform.buffer] ++ rest := by
  obtain ⟨d2, b2, h, _, _, ht⟩ :=
    reloadScene_some count alignedAlloc d b models scratch halloc
  exact ⟨d2, b2, h, ht⟩

/-- Witness of the amended C9 on the first instance of the scenario. -/
theorem reloadScene_destroys_first_witness :
    sampleAlloc
      (mul64 (reloadScene_align sampleDevice.minUniformBufferOffsetAlignment)
        (countNodes (fun modelSize _ => modelSize) [instance0]))
      (reloadScene_align sampleDevice.minUniformBufferOffsetAlignment) = some zeroMem ∧
    ∃ d2 b2, reloadScene (fun modelSize _ => modelSize) sampleAlloc sampleDevice
        sceneBuffers [instance0] = some (d2, b2) ∧
      ∃ rest, d2.trace = sampleDevice.trace ++
        [Action.vmaDestroyBuffer sceneBuffers.index.buffer,
          Action.vmaDestroyBuffer sceneBuffers.vertex.buffer,
          Action.vmaDestroyBuffer sceneBuffers.dynamicUniform.buffer] ++ rest :=
  ⟨rfl, reloadScene_destroys_first (fun modelSize _ => modelSize) sampleAlloc sampleDevice
    sceneBuffers [instance0] zeroMem rfl⟩

/-! ## C10: the camera buffer -/

/-- C10. With `camera.toggled` false, `updateUniformBuffer` returns the state it was given,
camera buffer included. With `camera.toggled` true, the camera buffer holds
`lookAt(pos, pos + front, up)` at offset 0 and the perspective projection with its `[1][1]`
entry negated at offset 64, its bytes from 128 on are unchanged, and no other member
changes. -/
theorem updateUniformBuffer_effect {F V D : Type} (G : Glm F V) (b : Buffers D)
    (camera : Camera V) (extent : VkExtent2D) :
    updateUniformBuffer G b { camera with toggled := false } extent = b ∧
    loadObj 64 (updateUniformBuffer G b { camera with toggled := true } extent).uniform.data 0
      = G.lookAt camera.pos (G.vadd camera.pos camera.front) camera.up ∧
    loadObj 64 (updateUniformBuffer G b { camera with toggled := true } extent).uniform.data 64
      = G.negate11 (G.perspective (G.radians G.lit110)
          (G.div (G.ofUInt32 extent.width) (G.ofUInt32 extent.height)) G.litNear G.litFar) ∧
    (∀ byte, sizeofUniformBufferObject ≤ byte →
      (updateUniformBuffer G b { camera with toggled := true } extent).uniform.data byte
        = b.uniform.data byte) ∧
    (updateUniformBuffer G b { camera with toggled := true } extent).uniform.buffer
      = b.uniform.buffer ∧
    (updateUniformBuffer G b { camera with toggled := true } extent).uniform.size
      = b.uniform.size ∧
    (updateUniformBuffer G b { camera with toggled := true } extent).vertex = b.vertex ∧
    (updateUniformBuffer G b { camera with toggled := true } extent).index = b.index ∧
    (updateUniformBuffer G b { camera with toggled := true } extent).dynamicUniform
      = b.dynamicUniform ∧
    (updateUniformBuffer G b { camera with toggled := true } extent).scratch = b.scratch ∧
    (updateUniformBuffer G b { camera with toggled := true } extent).dynamicAlignment
      = b.dynamicAlignment := by
  refine ⟨rfl, ?_, ?_, ?_, rfl, rfl, rfl, rfl, rfl, rfl, rfl⟩
  · funext t
    have ht := t.isLt
    simp only [updateUniformBuffer, loadObj, memcpy, UniformBufferObject.bytes, storeObj,
      sizeofUniformBufferObject, if_true]
    rw [if_pos (by omega), dif_neg (by omega), dif_pos ⟨by omega, by omega⟩]
    exact congrArg _ (Fin.ext (by simp))
  · funext t
    have ht := t.isLt
    simp only [updateUniformBuffer, loadObj, memcpy, UniformBufferObject.bytes, storeObj,
      sizeofUniformBufferObject, if_true]
    rw [if_pos (by omega), dif_pos ⟨by omega, by omega⟩]
    exact congrArg _ (Fin.ext (by simp))
  · intro byte hbyte
    unfold sizeofUniformBufferObject at hbyte
    simp only [updateUniformBuffer, memcpy, sizeofUniformBufferObject, if_true]
    rw [if_neg (by omega)]

/-! ## Staging lifetime lemmas -/

theorem replay_append (xs ys : List Action) :
    ∀ live, replay live (xs ++ ys) = replay (replay live xs) ys := by
  induction xs with
  | nil => intro live; rfl
  | cons a xs ih =>
    intro live
    cases a with
    | vmaCreateBuffer size usage properties vmaUsage result handle =>
      cases result <;> simp [replay, ih]
    | _ => simp [replay, ih]

theorem stagingCount_filter (live : List (Nat × List BufferUsage))
    (p : Nat × List BufferUsage → Bool) (h0 : stagingCount live = 0) :
    stagingCount (live.filter p) = 0 := by
  unfold stagingCount at *
  have hle : List.countP (fun e => isStaging e.2) (live.filter p)
      ≤ List.countP (fun e => isStaging e.2) live :=
    List.Sublist.countP_le _ (List.filter_sublist live)
  omega

theorem uploadLog_staging (size : Nat) (dstUsage : List BufferUsage) (rs : VkResult) (hs : Nat)
    (rd : VkResult) (hd : Nat) (hdst : isStaging dstUsage = false)
    (live : List (Nat × List BufferUsage)) (h0 : stagingCount live = 0) :
    (∀ k, stagingCount (replay live ((uploadLog size dstUsage rs hs rd hd).take k)) ≤ 1) ∧
      stagingCount (replay live (uploadLog size dstUsage rs hs rd hd)) = 0 := by
  have hf := stagingCount_filter live (fun e => e.1 != hs) h0
  have hsrc : isStaging [BufferUsage.transferSrc] = true := rfl
  unfold stagingCount at *
  by_cases hh : hd = hs
  · constructor
    · intro k
      rcases k with _ | _ | _ | _ | _ | _ | _ | _ | _ | k <;> cases rs <;> cases rd <;>
        simp [uploadLog, replay, List.countP_cons, List.filter_cons, hdst, hsrc, h0, hf, hh,
          -List.countP_eq_zero]
    · cases rs <;> cases rd <;>
        simp [uploadLog, replay, List.countP_cons, List.filter_cons, hdst, hsrc, h0, hf, hh,
          -List.countP_eq_zero]
  · constructor
    · intro k
      rcases k with _ | _ | _ | _ | _ | _ | _ | _ | _ | k <;> cases rs <;> cases rd <;>
        simp [uploadLog, replay, List.countP_cons, List.filter_cons, hdst, hsrc, h0, hf, hh,
          -List.countP_eq_zero]
    · cases rs <;> cases rd <;>
        simp [uploadLog, replay, List.countP_cons, List.filter_cons, hdst, hsrc, h0, hf, hh,
          -List.countP_eq_zero]

theorem staging_append (xs ys : List Action)
    (hx : ∀ live, stagingCount live = 0 →
      (∀ k, stagingCount (replay live (xs.take k)) ≤ 1) ∧ stagingCount (replay live xs) = 0)
    (hy : ∀ live, stagingCount live = 0 →
      (∀ k, stagingCount (replay live (ys.take k)) ≤ 1) ∧ stagingCount (replay live ys) = 0) :
    ∀ live, stagingCount live = 0 →
      (∀ k, stagingCount (replay live ((xs ++ ys).take k)) ≤ 1) ∧
        stagingCount (replay live (xs ++ ys)) = 0 := by
  intro live h0
  obtain ⟨hx1, hx2⟩ := hx live h0
  obtain ⟨hy1, hy2⟩ := hy (replay live xs) hx2
  refine ⟨?_, by rw [replay_append]; exact hy2⟩
  intro k
  rw [List.take_append_eq_append_take, replay_append]
  rcases Nat.lt_or_ge k xs.length with hlt | hge
  · have : k - xs.length = 0 := by omega
    rw [this, List.take_zero]
    exact hx1 k
  · rw [List.take_of_length_le hge]
    exact hy1 (k - xs.length)

theorem createModelBuffers_log {F V : Type} (d : Device) (vertex index : Buffer)
    (models : List (Model F V)) :
    ∃ rs rd rs2 rd2, (createModelBuffers d vertex index models).device.trace =
      d.trace ++
        (uploadLog (createModelBuffers d vertex index models).vertex.size
            [BufferUsage.transferDst, BufferUsage.vertexBuffer]
            rs (createModelBuffers d vertex index models).vStaging.buffer
            rd (createModelBuffers d vertex index models).vertex.buffer ++
          uploadLog (createModelBuffers d vertex index models).index.size
            [BufferUsage.transferDst, BufferUsage.indexBuffer]
            rs2 (createModelBuffers d vertex index models).iStaging.buffer
            rd2 (createModelBuffers d vertex index models).index.buffer) := by
  simp only [createModelBuffers, stage, copyBuffer, vmaDestroyBuffer_trace, log_trace,
    createBuffer_trace, List.append_assoc]
  exact ⟨_, _, _, _, rfl⟩

theorem vmaCreateBuffer_ok (d : Device) (size : Nat) (usage : List BufferUsage)
    (properties : List MemoryProperty) (vmaUsage : VmaMemoryUsage)
    (hok : ∀ r ∈ d.results, r = VkResult.success) :
    (vmaCreateBuffer d size usage properties vmaUsage).2 = (VkResult.success, d.next + 1) ∧
      (vmaCreateBuffer d size usage properties vmaUsage).1.next = d.next + 1 ∧
      (∀ r ∈ (vmaCreateBuffer d size usage properties vmaUsage).1.results,
        r = VkResult.success) := by
  unfold vmaCreateBuffer
  split
  · rename_i rest heq
    have := hok VkResult.errorOutOfDeviceMemory (by rw [heq]; exact List.mem_cons_self _ _)
    exact VkResult.noConfusion this
  · exact ⟨rfl, rfl, fun r hr => hok r (List.mem_of_mem_tail hr)⟩

theorem log_results (d : Device) (a : Action) : (d.log a).results = d.results := rfl

theorem log_next (d : Device) (a : Action) : (d.log a).next = d.next := rfl

theorem vmaDestroyBuffer_results (d : Device) (h : Nat) :
    (vmaDestroyBuffer d h).results = d.results := rfl

theorem vmaDestroyBuffer_next (d : Device) (h : Nat) : (vmaDestroyBuffer d h).next = d.next := rfl

theorem createBuffer_results (d : Device) (size : Nat) (usage : List BufferUsage)
    (properties : List MemoryProperty) (buffer : Buffer) (vmaUsage : VmaMemoryUsage) :
    (createBuffer d size usage properties buffer vmaUsage).1.results = d.results.tail := by
  unfold createBuffer vmaCreateBuffer
  split
  · rename_i rest heq
    simp [heq]
  · rfl

theorem createBuffer_next_ok (d : Device) (size : Nat) (usage : List BufferUsage)
    (properties : List MemoryProperty) (buffer : Buffer) (vmaUsage : VmaMemoryUsage)
    (hok : ∀ r ∈ d.results, r = VkResult.success) :
    (createBuffer d size usage properties buffer vmaUsage).1.next = d.next + 1 :=
  (vmaCreateBuffer_ok d size usage properties vmaUsage hok).2.1

theorem createBuffer_buffer_ok (d : Device) (size : Nat) (usage : List BufferUsage)
    (properties : List MemoryProperty) (buffer : Buffer) (vmaUsage : VmaMemoryUsage)
    (hok : ∀ r ∈ d.results, r = VkResult.success) :
    (createBuffer d size usage properties buffer vmaUsage).2.buffer = d.next + 1 :=
  congrArg Prod.snd (vmaCreateBuffer_ok d size usage properties vmaUsage hok).1

theorem vmaCreateBuffer_result_ok (d : Device) (size : Nat) (usage : List BufferUsage)
    (properties : List MemoryProperty) (vmaUsage : VmaMemoryUsage)
    (hok : ∀ r ∈ d.results, r = VkResult.success) :
    (vmaCreateBuffer d size usage properties vmaUsage).2.1 = VkResult.success :=
  congrArg Prod.fst (vmaCreateBuffer_ok d size usage properties vmaUsage hok).1

theorem createModelBuffers_log_ok {F V : Type} (d : Device) (vertex index : Buffer)
    (models : List (Model F V)) (hok : ∀ r ∈ d.results, r = VkResult.success) :
    (createModelBuffers d vertex index models).device.trace =
      d.trace ++
        (uploadLog (createModelBuffers d vertex index models).vertex.size
            [BufferUsage.transferDst, BufferUsage.vertexBuffer]
            VkResult.success (d.next + 1) VkResult.success (d.next + 2) ++
          uploadLog (createModelBuffers d vertex index models).index.size
            [BufferUsage.transferDst, BufferUsage.indexBuffer]
            VkResult.success (d.next + 3) VkResult.success (d.next + 4)) ∧
      (createModelBuffers d vertex index models).vStaging.buffer = d.next + 1 ∧
      (createModelBuffers d vertex index models).vertex.buffer = d.next + 2 ∧
      (createModelBuffers d vertex index models).iStaging.buffer = d.next + 3 ∧
      (createModelBuffers d vertex index models).index.buffer = d.next + 4 := by
  have h1 : ∀ r ∈ d.results.tail, r = VkResult.success :=
    fun r hr => hok r (List.mem_of_mem_tail hr)
  have h2 : ∀ r ∈ d.results.tail.tail, r = VkResult.success :=
    fun r hr => h1 r (List.mem_of_mem_tail hr)
  have h3 : ∀ r ∈ d.results.tail.tail.tail, r = VkResult.success :=
    fun r hr => h2 r (List.mem_of_mem_tail hr)
  simp only [createModelBuffers, stage, copyBuffer, vmaDestroyBuffer_trace, log_trace,
    createBuffer_trace, List.append_assoc, uploadLog]
  simp (disch := first
      | assumption
      | (simp only [log_results, vmaDestroyBuffer_results, createBuffer_results]; assumption))
    only [createBuffer_buffer_ok, vmaCreateBuffer_result_ok, createBuffer_next_ok,
    log_next, vmaDestroyBuffer_next, createBuffer_size]
  simp [Nat.add_assoc]

theorem log_live (d : Device) (a : Action) : (d.log a).live = d.live := rfl

theorem vmaDestroyBuffer_live (d : Device) (h : Nat) :
    (vmaDestroyBuffer d h).live = d.live.filter (fun x => x != h) := rfl

theorem uploadLog_handles (size : Nat) (dstUsage : List BufferUsage) (rs : VkResult) (hs : Nat)
    (rd : VkResult) (hd : Nat) (hdst : isStaging dstUsage = false) :
    stagingHandles (uploadLog size dstUsage rs hs rd hd) = [hs] ∧
      copySources (uploadLog size dstUsage rs hs rd hd) = [hs] ∧
      destroyedHandles (uploadLog size dstUsage rs hs rd hd) = [hs] ∧
      copiesThenDestroys (uploadLog size dstUsage rs hs rd hd) = true := by
  have hsrc : isStaging [BufferUsage.transferSrc] = true := rfl
  simp [uploadLog, stagingHandles, copySources, destroyedHandles, copiesThenDestroys, hdst, hsrc]

theorem stagingHandles_append (xs ys : List Action) :
    stagingHandles (xs ++ ys) = stagingHandles xs ++ stagingHandles ys := by
  induction xs with
  | nil => rfl
  | cons a xs ih =>
    cases a <;> simp [stagingHandles, ih]
    split <;> simp

theorem copySources_append (xs ys : List Action) :
    copySources (xs ++ ys) = copySources xs ++ copySources ys := by
  induction xs with
  | nil => rfl
  | cons a xs ih => cases a <;> simp [copySources, ih]

theorem destroyedHandles_append (xs ys : List Action) :
    destroyedHandles (xs ++ ys) = destroyedHandles xs ++ destroyedHandles ys := by
  induction xs with
  | nil => rfl
  | cons a xs ih => cases a <;> simp [destroyedHandles, ih]

theorem uploadLog_copiesThenDestroys (size size2 : Nat) (u u2 : List BufferUsage)
    (rs rd rs2 rd2 : VkResult) (hs hd hs2 hd2 : Nat) :
    copiesThenDestroys (uploadLog size u rs hs rd hd ++ uploadLog size2 u2 rs2 hs2 rd2 hd2)
      = true := by
  simp [uploadLog, copiesThenDestroys]

theorem createBuffer_next (d : Device) (size : Nat) (usage : List BufferUsage)
    (properties : List MemoryProperty) (buffer : Buffer) (vmaUsage : VmaMemoryUsage) :
    (createBuffer d size usage properties buffer vmaUsage).1.next =
      if d.results.head? = some VkResult.errorOutOfDeviceMemory then d.next else d.next + 1 := by
  unfold createBuffer vmaCreateBuffer
  split
  · rename_i rest heq
    simp [heq]
  · rename_i hne
    rw [if_neg]
    intro h
    cases hr : d.results with
    | nil => rw [hr] at h; simp at h
    | cons r rest =>
      rw [hr] at h
      simp at h
      exact hne rest (by rw [hr, h])

theorem createBuffer_live (d : Device) (size : Nat) (usage : List BufferUsage)
    (properties : List MemoryProperty) (buffer : Buffer) (vmaUsage : VmaMemoryUsage) :
    (createBuffer d size usage properties buffer vmaUsage).1.live =
      if d.results.head? = some VkResult.errorOutOfDeviceMemory then d.live
      else (d.next + 1) :: d.live := by
  unfold createBuffer vmaCreateBuffer
  split
  · rename_i rest heq
    simp [heq]
  · rename_i hne
    rw [if_neg]
    intro h
    cases hr : d.results with
    | nil => rw [hr] at h; simp at h
    | cons r rest =>
      rw [hr] at h
      simp at h
      exact hne rest (by rw [hr, h])

theorem createBuffer_buffer (d : Device) (size : Nat) (usage : List BufferUsage)
    (properties : List MemoryProperty) (buffer : Buffer) (vmaUsage : VmaMemoryUsage) :
    (createBuffer d size usage properties buffer vmaUsage).2.buffer =
      if d.results.head? = some VkResult.errorOutOfDeviceMemory then 0 else d.next + 1 := by
  unfold createBuffer vmaCreateBuffer
  split
  · rename_i rest heq
    simp [heq]
  · rename_i hne
    rw [if_neg]
    intro h
    cases hr : d.results with
    | nil => rw [hr] at h; simp at h
    | cons r rest =>
      rw [hr] at h
      simp at h
      exact hne rest (by rw [hr, h])

theorem createModelBuffers_live {F V : Type} (d : Device) (vertex index : Buffer)
    (models : List (Model F V)) :
    ((createModelBuffers d vertex index models).vertex.buffer ≠ 0 →
      (createModelBuffers d vertex index models).vertex.buffer ∈
        (createModelBuffers d vertex index models).device.live) ∧
    ((createModelBuffers d vertex index models).index.buffer ≠ 0 →
      (createModelBuffers d vertex index models).index.buffer ∈
        (createModelBuffers d vertex index models).device.live) ∧
    (createModelBuffers d vertex index models).vStaging.buffer ∉
      (createModelBuffers d vertex index models).device.live ∧
    (createModelBuffers d vertex index models).iStaging.buffer ∉
      (createModelBuffers d vertex index models).device.live := by
  simp only [createModelBuffers, stage, copyBuffer, createBuffer_buffer, createBuffer_next,
    createBuffer_live, createBuffer_results, log_live, vmaDestroyBuffer_live, log_next,
    vmaDestroyBuffer_next, log_results, vmaDestroyBuffer_results]
  have e2 : d.results.tail.head? = d.results[1]? := by simp
  have e3 : d.results.tail.tail.head? = d.results[2]? := by simp
  have e4 : d.results.tail.tail.tail.head? = d.results[3]? := by simp
  rw [e2, e3, e4]
  by_cases c1 : d.results.head? = some VkResult.errorOutOfDeviceMemory <;>
  by_cases c2 : d.results[1]? = some VkResult.errorOutOfDeviceMemory <;>
  by_cases c3 : d.results[2]? = some VkResult.errorOutOfDeviceMemory <;>
  by_cases c4 : d.results[3]? = some VkResult.errorOutOfDeviceMemory <;>
  simp [c1, c2, c3, c4, List.filter_cons, List.mem_filter]

/-! ## C11: staging buffer lifetime -/

/-- C11. The calls `createModelBuffers` appends to the log, applied one after another to any
set of live buffers without a staging buffer, never leave more than one staging buffer live.
The staging buffers created, the sources copied from and the buffers destroyed are the same
two, `vStaging` then `iStaging`, and every copy is followed at once by the
`endSingleTimeCommands` that completes it and then by the destruction of its source. At the
end no staging buffer is live, in that set and in the device's own; `vertex` and `index`
are live there whenever their handle is not null, and it is not null when no scripted
allocation fails. -/
theorem createModelBuffers_staging_lifetime {F V : Type} (d : Device) (vertex index : Buffer)
    (models : List (Model F V)) :
    ∃ log, (createModelBuffers d vertex index models).device.trace = d.trace ++ log ∧
      (∀ live, stagingCount live = 0 → ∀ k, stagingCount (replay live (log.take k)) ≤ 1) ∧
      stagingHandles log = [(createModelBuffers d vertex index models).vStaging.buffer,
        (createModelBuffers d vertex index models).iStaging.buffer] ∧
      copySources log = stagingHandles log ∧
      destroyedHandles log = stagingHandles log ∧
      copiesThenDestroys log = true ∧
      (∀ live, stagingCount live = 0 → stagingCount (replay live log) = 0) ∧
      (createModelBuffers d vertex index models).vStaging.buffer ∉
        (createModelBuffers d vertex index models).device.live ∧
      (createModelBuffers d vertex index models).iStaging.buffer ∉
        (createModelBuffers d vertex index models).device.live ∧
      ((createModelBuffers d vertex index models).vertex.buffer ≠ 0 →
        (createModelBuffers d vertex index models).vertex.buffer ∈
          (createModelBuffers d vertex index models).device.live) ∧
      ((createModelBuffers d vertex index models).index.buffer ≠ 0 →
        (createModelBuffers d vertex index models).index.buffer ∈
          (createModelBuffers d vertex index models).device.live) ∧
      ((∀ r ∈ d.results, r = VkResult.success) →
        (createModelBuffers d vertex index models).vertex.buffer ≠ 0 ∧
        (createModelBuffers d vertex index models).index.buffer ≠ 0 ∧
        ∀ live,
          ((createModelBuffers d vertex index models).vertex.buffer,
              [BufferUsage.transferDst, BufferUsage.vertexBuffer]) ∈ replay live log ∧
            ((createModelBuffers d vertex index models).index.buffer,
              [BufferUsage.transferDst, BufferUsage.indexBuffer]) ∈ replay live log) := by
  obtain ⟨rs, rd, rs2, rd2, hlog⟩ := createModelBuffers_log d vertex index models
  have hv : isStaging [BufferUsage.transferDst, BufferUsage.vertexBuffer] = false := rfl
  have hi : isStaging [BufferUsage.transferDst, BufferUsage.indexBuffer] = false := rfl
  have hall := staging_append _ _
    (uploadLog_staging (createModelBuffers d vertex index models).vertex.size _ rs
      (createModelBuffers d vertex index models).vStaging.buffer rd
      (createModelBuffers d vertex index models).vertex.buffer hv)
    (uploadLog_staging (createModelBuffers d vertex index models).index.size _ rs2
      (createModelBuffers d vertex index models).iStaging.buffer rd2
      (createModelBuffers d vertex index models).index.buffer hi)
  obtain ⟨a1, a2, a3, _⟩ := uploadLog_handles
    (createModelBuffers d vertex index models).vertex.size _ rs
    (createModelBuffers d vertex index models).vStaging.buffer rd
    (createModelBuffers d vertex index models).vertex.buffer hv
  obtain ⟨b1, b2, b3, _⟩ := uploadLog_handles
    (createModelBuffers d vertex index models).index.size _ rs2
    (createModelBuffers d vertex index models).iStaging.buffer rd2
    (createModelBuffers d vertex index models).index.buffer hi
  obtain ⟨l1, l2, l3, l4⟩ := createModelBuffers_live d vertex index models
  refine ⟨_, hlog, fun live h0 => (hall live h0).1, ?_, ?_, ?_,
    uploadLog_copiesThenDestroys _ _ _ _ _ _ _ _ _ _ _ _, fun live h0 => (hall live h0).2,
    l3, l4, l1, l2, ?_⟩
  · rw [stagingHandles_append, a1, b1]; rfl
  · rw [stagingHandles_append, copySources_append, a1, b1, a2, b2]
  · rw [stagingHandles_append, destroyedHandles_append, a1, b1, a3, b3]
  · intro hok
    obtain ⟨hlog2, _, e2, _, e4⟩ := createModelBuffers_log_ok d vertex index models hok
    have hrest := List.append_cancel_left (hlog.symm.trans hlog2)
    refine ⟨by rw [e2]; omega, by rw [e4]; omega, ?_⟩
    intro live
    rw [hrest, e2, e4]
    simp [uploadLog, replay, List.filter_cons]


/-- Witness of C11 on `sampleDevice`, whose script has no failing allocation. -/
theorem createModelBuffers_staging_lifetime_witness :
    (∀ r ∈ sampleDevice.results, r = VkResult.success) ∧
    (∃ log,
      (createModelBuffers sampleDevice Buffer.null Buffer.null [instance0]).device.trace
        = sampleDevice.trace ++ log ∧
      (∀ live, stagingCount live = 0 → ∀ k, stagingCount (replay live (log.take k)) ≤ 1) ∧
      stagingHandles log =
        [(createModelBuffers sampleDevice Buffer.null Buffer.null [instance0]).vStaging.buffer,
          (createModelBuffers sampleDevice Buffer.null Buffer.null
            [instance0]).iStaging.buffer] ∧
      copySources log = stagingHandles log ∧
      destroyedHandles log = stagingHandles log ∧
      copiesThenDestroys log = true ∧
      (∀ live, stagingCount live = 0 → stagingCount (replay live log) = 0) ∧
      (createModelBuffers sampleDevice Buffer.null Buffer.null [instance0]).vStaging.buffer ∉
        (createModelBuffers sampleDevice Buffer.null Buffer.null [instance0]).device.live ∧
      (createModelBuffers sampleDevice Buffer.null Buffer.null [instance0]).iStaging.buffer ∉
        (createModelBuffers sampleDevice Buffer.null Buffer.null [instance0]).device.live ∧
      ((createModelBuffers sampleDevice Buffer.null Buffer.null [instance0]).vertex.buffer ≠ 0 →
        (createModelBuffers sampleDevice Buffer.null Buffer.null [instance0]).vertex.buffer ∈
          (createModelBuffers sampleDevice Buffer.null Buffer.null [instance0]).device.live) ∧
      ((createModelBuffers sampleDevice Buffer.null Buffer.null [instance0]).index.buffer ≠ 0 →
        (createModelBuffers sampleDevice Buffer.null Buffer.null [instance0]).index.buffer ∈
          (createModelBuffers sampleDevice Buffer.null Buffer.null [instance0]).device.live) ∧
      ((∀ r ∈ sampleDevice.results, r = VkResult.success) →
        (createModelBuffers sampleDevice Buffer.null Buffer.null [instance0]).vertex.buffer ≠ 0 ∧
        (createModelBuffers sampleDevice Buffer.null Buffer.null [instance0]).index.buffer ≠ 0 ∧
        ∀ live,
          ((createModelBuffers sampleDevice Buffer.null Buffer.null [instance0]).vertex.buffer,
              [BufferUsage.transferDst, BufferUsage.vertexBuffer]) ∈ replay live log ∧
            ((createModelBuffers sampleDevice Buffer.null Buffer.null [instance0]).index.buffer,
              [BufferUsage.transferDst, BufferUsage.indexBuffer]) ∈ replay live log)) :=
  ⟨by decide, createModelBuffers_staging_lifetime sampleDevice Buffer.null Buffer.null
    [instance0]⟩

/-! ## C12: no alignment constraint -/

/-- C12. With a reported minimum alignment of 0 the stride is the natural size unchanged:
`alignedStride x 0 = x` for every `x`, the computations of `createUniformBuffers` and of
`reloadScene` give `sizeof(mat4) = 64`, and on a device reporting 0 both functions, their host
allocation succeeding, store the stride 64. -/
theorem alignedStride_zero {F V : Type} (x : Nat) (count : Nat → List Node → Nat)
    (ubo scratch : Mem) (d : Device) (b1 : Buffers (List Buffer)) (b2 : Buffers Buffer)
    (images : List Nat) (models : List (Model F V)) :
    alignedStride x 0 = x ∧
      createUniformBuffers_dynamicAlignment 0 = sizeofMat4 ∧
      reloadScene_align 0 = sizeofMat4 ∧
      sizeofMat4 = 64 ∧
      (∃ d2 b, createUniformBuffers (fun _ _ => some scratch) ubo
          { d with minUniformBufferOffsetAlignment := 0 } b1 images models = some (d2, b) ∧
        b.dynamicAlignment = 64) ∧
      (∃ d2 b, reloadScene count (fun _ _ => some scratch)
          { d with minUniformBufferOffsetAlignment := 0 } b2 models = some (d2, b) ∧
        b.dynamicUniform.align = 64) := by
  refine ⟨rfl, rfl, rfl, rfl, ?_, ?_⟩
  · obtain ⟨d2, b, h, ha, _⟩ := createUniformBuffers_some (fun _ _ => some scratch) ubo
      { d with minUniformBufferOffsetAlignment := 0 } b1 images models scratch rfl
    exact ⟨d2, b, h, ha⟩
  · obtain ⟨d2, b, h, ha, _⟩ := reloadScene_some count (fun _ _ => some scratch)
      { d with minUniformBufferOffsetAlignment := 0 } b2 models scratch rfl
    exact ⟨d2, b, h, ha⟩

/-! ## C13: frame of updateDynamicUniformBuffer -/

/-- C13. For a slot `k` below the number of dynamic-uniform buffers,
`updateDynamicUniformBuffer k models` leaves every dynamic-uniform buffer other than the one
of slot `k` as it was, leaves the vertex, index and camera-uniform buffers as they were, and
keeps the number of dynamic-uniform buffers and the stride; the buffer of slot `k` keeps its
handle and size, and its bytes from `dynamicAlignment * models.size()` (the 64-bit product)
on. -/
theorem updateDynamicUniformBuffer_frame {F V : Type} (G : Glm F V)
    (b : Buffers (List Buffer)) (k : Nat) (models : List (Model F V))
    (hk : k < b.dynamicUniform.length) :
    (∀ j, j ≠ k →
      (updateDynamicUniformBuffer G b k models).dynamicUniform[j]? = b.dynamicUniform[j]?) ∧
    (updateDynamicUniformBuffer G b k models).dynamicUniform.length
      = b.dynamicUniform.length ∧
    (updateDynamicUniformBuffer G b k models).vertex = b.vertex ∧
    (updateDynamicUniformBuffer G b k models).index = b.index ∧
    (updateDynamicUniformBuffer G b k models).uniform = b.uniform ∧
    (updateDynamicUniformBuffer G b k models).dynamicAlignment = b.dynamicAlignment ∧
    (∃ old new, b.dynamicUniform[k]? = some old ∧
      (updateDynamicUniformBuffer G b k models).dynamicUniform[k]? = some new ∧
      new.buffer = old.buffer ∧ new.size = old.size ∧
      ∀ byte, mul64 b.dynamicAlignment models.length ≤ byte →
        new.data byte = old.data byte) := by
  simp only [updateDynamicUniformBuffer, List.getElem?_eq_getElem hk]
  refine ⟨?_, List.length_set _ _ _, trivial, trivial, trivial, trivial, ?_⟩
  · intro j hj
    exact List.getElem?_set_ne (Ne.symm hj)
  · refine ⟨_, _, rfl, List.getElem?_set_self hk, rfl, rfl, ?_⟩
    intro byte hbyte
    simp only [memcpy]
    rw [if_neg (by omega)]

/-- Witness of C13: slot 1 of the two slots of `sampleBuffers`. -/
theorem updateDynamicUniformBuffer_frame_witness :
    1 < sampleBuffers.dynamicUniform.length ∧
    ((∀ j, j ≠ 1 →
      (updateDynamicUniformBuffer sampleGlm sampleBuffers 1
        [instance0, instance1]).dynamicUniform[j]? = sampleBuffers.dynamicUniform[j]?) ∧
    (updateDynamicUniformBuffer sampleGlm sampleBuffers 1
      [instance0, instance1]).dynamicUniform.length = sampleBuffers.dynamicUniform.length ∧
    (updateDynamicUniformBuffer sampleGlm sampleBuffers 1 [instance0, instance1]).vertex
      = sampleBuffers.vertex ∧
    (updateDynamicUniformBuffer sampleGlm sampleBuffers 1 [instance0, instance1]).index
      = sampleBuffers.index ∧
    (updateDynamicUniformBuffer sampleGlm sampleBuffers 1 [instance0, instance1]).uniform
      = sampleBuffers.uniform ∧
    (updateDynamicUniformBuffer sampleGlm sampleBuffers 1
      [instance0, instance1]).dynamicAlignment = sampleBuffers.dynamicAlignment ∧
    (∃ old new, sampleBuffers.dynamicUniform[1]? = some old ∧
      (updateDynamicUniformBuffer sampleGlm sampleBuffers 1
        [instance0, instance1]).dynamicUniform[1]? = some new ∧
      new.buffer = old.buffer ∧ new.size = old.size ∧
      ∀ byte, mul64 sampleBuffers.dynamicAlignment [instance0, instance1].length ≤ byte →
        new.data byte = old.data byte)) :=
  ⟨by decide, updateDynamicUniformBuffer_frame sampleGlm sampleBuffers 1
    [instance0, instance1] (by decide)⟩

/-! ## C14: records stay inside the scratch array -/

/-- C14. For every reported alignment `a` with `64 + a - 1 < 2 ^ 64` the stride computed by
`createUniformBuffers` is at least `sizeof(mat4) = 64`. Hence for `i < n` the record at
`i * stride` ends within `n * stride` bytes, and the records of two distinct indices do not
overlap. One pass of the loop body writes only the 64 bytes from its offset on, and for
fewer than `2 ^ 32` models with `n * stride < 2 ^ 64` the offset and the allocation size the
code computes in 64 bits are these exact products. -/
theorem records_in_bounds {F V : Type} (G : Glm F V) (a : Nat) (hb : 64 + a - 1 < 2 ^ 64)
    (n i : Nat) (hi : i < n) :
    sizeofMat4 ≤ createUniformBuffers_dynamicAlignment a ∧
    i * createUniformBuffers_dynamicAlignment a + sizeofMat4
      ≤ n * createUniformBuffers_dynamicAlignment a ∧
    (∀ j, j ≠ i →
      i * createUniformBuffers_dynamicAlignment a + sizeofMat4
          ≤ j * createUniformBuffers_dynamicAlignment a ∨
        j * createUniformBuffers_dynamicAlignment a + sizeofMat4
          ≤ i * createUniformBuffers_dynamicAlignment a) ∧
    (∀ (scratch : Mem) (model : Model F V) (byte : Nat),
      (byte < mul64 (i % 2 ^ 32) (createUniformBuffers_dynamicAlignment a) ∨
        mul64 (i % 2 ^ 32) (createUniformBuffers_dynamicAlignment a) + sizeofMat4 ≤ byte) →
      writeInstance G (createUniformBuffers_dynamicAlignment a) scratch i model byte
        = scratch byte) ∧
    (n < 2 ^ 32 → n * createUniformBuffers_dynamicAlignment a < 2 ^ 64 →
      mul64 (i % 2 ^ 32) (createUniformBuffers_dynamicAlignment a)
          = i * createUniformBuffers_dynamicAlignment a ∧
        mul64 n (createUniformBuffers_dynamicAlignment a)
          = n * createUniformBuffers_dynamicAlignment a) := by
  have hge : sizeofMat4 ≤ createUniformBuffers_dynamicAlignment a :=
    alignedStride_ge_mat4 a hb
  generalize createUniformBuffers_dynamicAlignment a = s at hge ⊢
  refine ⟨hge, ?_, ?_, ?_, ?_⟩
  · have h : (i + 1) * s ≤ n * s := Nat.mul_le_mul_right s hi
    rw [Nat.add_mul, Nat.one_mul] at h
    omega
  · intro j hj
    rcases Nat.lt_or_gt_of_ne hj with hlt | hgt
    · right
      have h : (j + 1) * s ≤ i * s := Nat.mul_le_mul_right s hlt
      rw [Nat.add_mul, Nat.one_mul] at h
      omega
    · left
      have h : (i + 1) * s ≤ j * s := Nat.mul_le_mul_right s hgt
      rw [Nat.add_mul, Nat.one_mul] at h
      omega
  · intro scratch model byte hbyte
    rw [writeInstance_eq]
    exact storeObj_outside _ _ _ _ (by unfold sizeofMat4 at hbyte; omega)
  · intro hn hsz
    refine ⟨offset_exact i n s hi hn hsz, ?_⟩
    unfold mul64
    exact Nat.mod_eq_of_lt hsz

/-- Witness of C14: alignment 256, two instances, the second record. -/
theorem records_in_bounds_witness :
    64 + 256 - 1 < 2 ^ 64 ∧ 1 < 2 ∧
    (sizeofMat4 ≤ createUniformBuffers_dynamicAlignment 256 ∧
    1 * createUniformBuffers_dynamicAlignment 256 + sizeofMat4
      ≤ 2 * createUniformBuffers_dynamicAlignment 256 ∧
    (∀ j, j ≠ 1 →
      1 * createUniformBuffers_dynamicAlignment 256 + sizeofMat4
          ≤ j * createUniformBuffers_dynamicAlignment 256 ∨
        j * createUniformBuffers_dynamicAlignment 256 + sizeofMat4
          ≤ 1 * createUniformBuffers_dynamicAlignment 256) ∧
    (∀ (scratch : Mem) (model : Model Int (Int × Int × Int)) (byte : Nat),
      (byte < mul64 (1 % 2 ^ 32) (createUniformBuffers_dynamicAlignment 256) ∨
        mul64 (1 % 2 ^ 32) (createUniformBuffers_dynamicAlignment 256) + sizeofMat4 ≤ byte) →
      writeInstance sampleGlm (createUniformBuffers_dynamicAlignment 256) scratch 1 model byte
        = scratch byte) ∧
    (2 < 2 ^ 32 → 2 * createUniformBuffers_dynamicAlignment 256 < 2 ^ 64 →
      mul64 (1 % 2 ^ 32) (createUniformBuffers_dynamicAlignment 256)
          = 1 * createUniformBuffers_dynamicAlignment 256 ∧
        mul64 2 (createUniformBuffers_dynamicAlignment 256)
          = 2 * createUniformBuffers_dynamicAlignment 256)) :=
  ⟨by decide, by decide, records_in_bounds sampleGlm 256 (by decide) 2 1 (by decide)⟩

end Adren
